import Mathlib

/-!
# PixelRasterizer: a shallow embedding of the budgeted incremental shading engine

This file embeds the two TypeScript (roblox-ts) source files of the
repository — `src/client/main.client.ts` (the *image variant*, shading a
dense pixel grid into a byte buffer) and `src/server/main.server.ts` (the
*part variant*, shading a grid of 3D probe parts through a sparse delta
buffer) — and proves or refutes the frozen claims about them.

Modelling conventions:
* Roblox `Vector3` is a triple of rationals (`Vec`); all numeric work is
  exact rational arithmetic (the idealised real semantics of the source's
  floating point).
* `Vector3.Unit` appears in the source only applied to light directions,
  which are unit vectors (`Lighting.GetSunDirection().Unit`); on a unit
  vector `.Unit` is the identity, and it is embedded as such where the
  result only feeds an opaque raycast oracle.  The one place where the
  *comparison* `a.Unit.Dot(b.Unit) !== 1` matters (the client's
  light-changed test) is embedded by its exact real characterisation:
  for the unit (hence nonzero) vectors involved, `a.Unit ⬝ b.Unit = 1`
  holds iff `a ⬝ b > 0 ∧ (a ⬝ b)² = (a ⬝ a) * (b ⬝ b)` (Cauchy–Schwarz
  equality), which is decidable over ℚ.
* The host scene is an oracle: `cast : Vec → Vec → Option RayHit` for
  `Workspace.Raycast` on primary rays and `shadowCast : Vec → Vec → Bool`
  for the shadow rays (`true` = the shadow ray hit something).
* Roblox `Instance` identity and `Enum.Material` are opaque ids (`Nat`).
* Mutable module-level state is threaded as explicit state records
  (`ImgState`, `SrvState`).  Ghost fields (`primaryCasts`, `shadowCasts`,
  `shadeCount`, `trace`, `log`, `lastFlushUpdated`) instrument observable
  events of the source — raycasts issued, reshade branches taken, sample
  indices visited by the scheduler, `print` calls — without altering the
  embedded control flow.
-/

/-- A 3D vector with exact rational components (Roblox `Vector3`). -/
structure Vec where
  x : ℚ
  y : ℚ
  z : ℚ
deriving DecidableEq, Repr

/-- Componentwise vector addition (`Vector3:add`). -/
def vadd (a b : Vec) : Vec := ⟨a.x + b.x, a.y + b.y, a.z + b.z⟩

/-- Scalar multiplication (`Vector3:mul` with a number). -/
def vmul (a : Vec) (c : ℚ) : Vec := ⟨a.x * c, a.y * c, a.z * c⟩

/-- Dot product of two vectors. -/
def dotV (a b : Vec) : ℚ := a.x * b.x + a.y * b.y + a.z * b.z

/-- Exact-real semantics of the source test `a.Unit.Dot(b.Unit) === 1`:
for nonzero `a`, `b` the normalised dot product equals 1 iff the raw dot
product is positive and its square equals the product of the squared norms
(Cauchy–Schwarz equality case).  For `a = 0` or `b = 0` (where `.Unit` is
NaN in Roblox and the comparison with 1 is false) this is `false` too. -/
def dotUnitEqOne (a b : Vec) : Bool :=
  decide (0 < dotV a b) && decide (dotV a b * dotV a b = dotV a a * dotV b b)

/-- Lua's `math.abs`, written so the kernel can evaluate it on ℚ
(Mathlib's lattice-derived `|·|` does not reduce definitionally). -/
def qabs (q : ℚ) : ℚ := if q < 0 then -q else q

/-- Embeds `fuzzyEqual` of `main.server.ts`: componentwise closeness below `epsilon`. -/
def fuzzyEqual (a b : Vec) (epsilon : ℚ) : Bool :=
  decide (qabs (a.x - b.x) < epsilon) && decide (qabs (a.y - b.y) < epsilon) &&
    decide (qabs (a.z - b.z) < epsilon)

/-- The result of a successful `Workspace.Raycast`: the hit instance's
stable identity, the hit position and surface normal, the instance's
material id and its `Color` (Roblox `Color3`, channels in `[0,1]`). -/
structure RayHit where
  instanceId : ℕ
  position : Vec
  normal : Vec
  material : ℕ
  colorR : ℚ
  colorG : ℚ
  colorB : ℚ
deriving DecidableEq, Repr

/-- Reads `List.get?` over a TypeScript (double-valued) index: a negative index
reads `undefined`, as `pixelData[pixelIdx]` does in Luau/TS. -/
def listGetZ {α : Type} (l : List α) : ℤ → Option α
  | Int.ofNat n => l.get? n
  | Int.negSucc _ => none

/-- Write back through a TypeScript index: no-op when out of range. -/
def listSetZ {α : Type} (l : List α) (i : ℤ) (v : α) : List α :=
  match i with
  | Int.ofNat n => l.set n v
  | Int.negSucc _ => l

/-! ## Image variant (`src/client/main.client.ts`) -/

/-- Embeds `LightingPixel` of the client: the sample's fixed primary-ray data and
its per-sample cache of last-known scene/light state. -/
structure LightingPixel where
  worldPosition : Vec
  rayDirection : Vec
  lastHitInstance : Option ℕ
  lastHitPosition : Option Vec
  lastHitMaterial : Option ℕ
  lastLightDirection : Option Vec
deriving DecidableEq, Repr

/-- Embeds `IMAGE_WIDTH` of the client. -/
def IMAGE_WIDTH : ℕ := 100

/-- Embeds `IMAGE_HEIGHT` of the client. -/
def IMAGE_HEIGHT : ℕ := 60

/-- Embeds `TOTAL_PIXELS = IMAGE_WIDTH * IMAGE_HEIGHT`. -/
def TOTAL_PIXELS : ℕ := IMAGE_WIDTH * IMAGE_HEIGHT

/-- Embeds `FORCE_UPDATE_INT`: frames between forced updates (both variants use 10). -/
def FORCE_UPDATE_INT : ℕ := 10

/-- Embeds `BATCH_SIZE` of the client: pixels updated per rotating frame. -/
def BATCH_SIZE : ℕ := 400

/-- Embeds `maxForceUpdates` of the client's forced branch. -/
def imgMaxForceUpdates : ℕ := 500

/-- Embeds `shadowLimit` of the client's forced branch. -/
def imgForcedShadowLimit : ℕ := 200

/-- Embeds `shadowLimit` of the client's rotating branch. -/
def imgRotShadowLimit : ℕ := 400

/-- The client's module state: `pixelData`, the RGBA byte buffer `buf`
(address → byte), the presented copy of the buffer (what
`editableImage` last received via `WritePixelsBuffer`), the rotating
cursor `pixelIndex`, `globalFrameCount`, `refresh_timer`, the per-frame
`shadowLimiter`, and ghost instrumentation counters. -/
structure ImgState where
  pixelData : List LightingPixel
  buf : ℕ → ℕ
  presented : ℕ → ℕ
  pixelIndex : ℕ
  globalFrameCount : ℕ
  refresh_timer : ℚ
  shadowLimiter : ℕ
  primaryCasts : ℕ
  shadowCasts : ℕ
  shadeCount : ℕ
  trace : List ℕ

/-- One byte as stored by `buffer.writeu8` after `math.floor`. -/
def byteOf (q : ℚ) : ℕ := (Int.floor q % 256).toNat

/-- Write one byte of the pixel buffer. -/
def writeByte (buf : ℕ → ℕ) (off : ℕ) (q : ℚ) : ℕ → ℕ :=
  fun i => if i = off then byteOf q else buf i

/-- Embeds `setPixelColor` of the client: write RGBA at `pixelIndex * 4`.  The
source's default alpha argument (255) is passed explicitly by callers here. -/
def setPixelColor (s : ImgState) (pixelIndex : ℕ) (r g b a : ℚ) : ImgState :=
  let off := pixelIndex * 4
  { s with buf :=
      writeByte (writeByte (writeByte (writeByte s.buf off r) (off + 1) g)
        (off + 2) b) (off + 3) a }

/-- The client's scene-changed test, exactly as `updatePixel` computes it:
the current hit instance differs from the cached one, or the current hit
material differs from the cached one.  (The client compares nothing else;
in particular it never consults hit positions.) -/
def imgSceneChangedB (cachedInst cachedMat curInst curMat : Option ℕ) : Bool :=
  decide (curInst ≠ cachedInst) || decide (curMat ≠ cachedMat)

/-- The client's light-changed test: no cached light direction, or
`lastLightDirection.Unit.Dot(lightDirection.Unit) !== 1`. -/
def imgLightChangedB (cached : Option Vec) (cur : Vec) : Bool :=
  match cached with
  | none => true
  | some c => !(dotUnitEqOne c cur)

/-- Embeds `isInShadow` of the client: once the per-frame limiter has reached
`maxShadowRays` it returns `false` without issuing a raycast and without
touching the limiter; otherwise it increments the limiter and issues
exactly one shadow raycast (ghost `shadowCasts`). -/
def isInShadowImg (shadowCast : Vec → Vec → Bool) (position lightDirection : Vec)
    (maxDistance : ℚ) (maxShadowRays : ℕ) (s : ImgState) : Bool × ImgState :=
  if maxShadowRays ≤ s.shadowLimiter then (false, s)
  else
    let s1 := { s with shadowLimiter := s.shadowLimiter + 1,
                       shadowCasts := s.shadowCasts + 1 }
    let offsetPos := vadd position (vmul lightDirection (1/10))
    (shadowCast offsetPos (vmul lightDirection maxDistance), s1)

/-- Embeds `updatePixel` of the client.  Fetches the pixel (no-op when the index
has no entry), casts the primary ray, computes the scene/light-changed
tests and the forced flag, unconditionally overwrites the cache, and —
when dirty or forced — shades (shadow/lit/sky branch) and writes the
result into the pixel buffer.  Ghost `shadeCount` counts taken reshade
branches. -/
def updatePixel (cast : Vec → Vec → Option RayHit) (shadowCast : Vec → Vec → Bool)
    (pixelIdx : ℤ) (currentFrame : ℕ) (lightDirection : Vec) (maxShadowRays : ℕ)
    (s : ImgState) : ImgState :=
  match listGetZ s.pixelData pixelIdx with
  | none => s
  | some pixel =>
    let rayResult := cast pixel.worldPosition (vmul pixel.rayDirection 100)
    let forceUpdate : Bool := decide (currentFrame % FORCE_UPDATE_INT = 0)
    let hitInstance := rayResult.map RayHit.instanceId
    let hitPosition := rayResult.map RayHit.position
    let hitMaterial := rayResult.map RayHit.material
    let sceneChanged := imgSceneChangedB pixel.lastHitInstance pixel.lastHitMaterial
      hitInstance hitMaterial
    let lightChanged := imgLightChangedB pixel.lastLightDirection lightDirection
    let pixel1 : LightingPixel :=
      { pixel with lastHitInstance := hitInstance, lastHitPosition := hitPosition,
                   lastHitMaterial := hitMaterial,
                   lastLightDirection := some lightDirection }
    let s1 : ImgState :=
      { s with pixelData := listSetZ s.pixelData pixelIdx pixel1,
               primaryCasts := s.primaryCasts + 1 }
    if sceneChanged || lightChanged || forceUpdate then
      let s2 := { s1 with shadeCount := s1.shadeCount + 1 }
      match rayResult with
      | some hit =>
        let testPosition := vadd hit.position (vmul hit.normal (1/10))
        let res := isInShadowImg shadowCast testPosition lightDirection 300
          maxShadowRays s2
        let s3 := res.2
        if res.1 then
          let r := hit.colorR * 255 * (1 - 6/10) + 50 * (6/10)
          let g := hit.colorG * 255 * (1 - 6/10) + 50 * (6/10)
          let b := hit.colorB * 255 * (1 - 6/10) + 100 * (6/10)
          setPixelColor s3 pixelIdx.toNat r g b 255
        else
          let r := min 255 (hit.colorR * 255 * (3/10) + 255 * (4/10))
          let g := min 255 (hit.colorG * 255 * (3/10) + 255 * (4/10))
          let b := min 255 (hit.colorB * 255 * (3/10) + 200 * (4/10))
          setPixelColor s3 pixelIdx.toNat r g b 255
      | none =>
        let r := 51 * (1 - 6/10) + 255 * (6/10)
        let g := 168 * (1 - 6/10) + 255 * (6/10)
        let b := 247 * (1 - 6/10) + 200 * (6/10)
        setPixelColor s2 pixelIdx.toNat r g b 255
    else s1

/-- Embeds `initializePixelData` of the client: the row-major pixel grid around
`centerPosition` with the fixed `(0,0,1)` ray direction and empty caches. -/
def initializePixelData (centerPosition : Vec) (scale : ℚ) : List LightingPixel :=
  ((List.range IMAGE_HEIGHT).map (fun y =>
    (List.range IMAGE_WIDTH).map (fun x =>
      { worldPosition :=
          ⟨centerPosition.x - ((x : ℚ) - (IMAGE_WIDTH : ℚ) / 2) * scale,
           centerPosition.y - ((y : ℚ) - (IMAGE_HEIGHT : ℚ) / 2) * scale,
           centerPosition.z⟩,
        rayDirection := ⟨0, 0, 1⟩,
        lastHitInstance := none,
        lastHitPosition := none,
        lastHitMaterial := none,
        lastLightDirection := none } ))).flatten

/-- One iteration of the client's forced loop: record the visited index
in the ghost trace and update pixel `i` with the forced shadow tier. -/
def imgForcedStep (cast : Vec → Vec → Option RayHit) (shadowCast : Vec → Vec → Bool)
    (lightDirection : Vec) (frame : ℕ) (st : ImgState) (i : ℕ) : ImgState :=
  updatePixel cast shadowCast (Int.ofNat i) frame lightDirection
    imgForcedShadowLimit { st with trace := st.trace ++ [i] }

/-- The client's forced-refresh pass: update pixels `0` to
`min TOTAL_PIXELS imgMaxForceUpdates - 1` with the forced-tier shadow
limit, ignoring the cursor.  Ghost `trace` records each visited index. -/
def imgForcedPass (cast : Vec → Vec → Option RayHit) (shadowCast : Vec → Vec → Bool)
    (lightDirection : Vec) (frame : ℕ) (s : ImgState) : ImgState :=
  (List.range (min TOTAL_PIXELS imgMaxForceUpdates)).foldl
    (imgForcedStep cast shadowCast lightDirection frame) s

/-- One iteration of the client's rotating loop: record the cursor in the
ghost trace, update the pixel under the cursor with the rotating shadow
tier, then advance the cursor modulo `TOTAL_PIXELS`. -/
def imgRotStep (cast : Vec → Vec → Option RayHit) (shadowCast : Vec → Vec → Bool)
    (lightDirection : Vec) (frame : ℕ) (st : ImgState) (_i : ℕ) : ImgState :=
  let st1 := updatePixel cast shadowCast (Int.ofNat st.pixelIndex) frame
    lightDirection imgRotShadowLimit { st with trace := st.trace ++ [st.pixelIndex] }
  { st1 with pixelIndex := (st1.pixelIndex + 1) % TOTAL_PIXELS }

/-- The client's rotating pass: `BATCH_SIZE` updates starting at the
cursor, advancing it modulo `TOTAL_PIXELS` after each update. -/
def imgRotPass (cast : Vec → Vec → Option RayHit) (shadowCast : Vec → Vec → Bool)
    (lightDirection : Vec) (frame : ℕ) (s : ImgState) : ImgState :=
  (List.range BATCH_SIZE).foldl
    (imgRotStep cast shadowCast lightDirection frame) s

/-- The client's `Heartbeat` callback: accumulate `dT` and return below the
1/20 s step; otherwise reset the timer and the shadow limiter, advance the
frame count, run the forced pass when `globalFrameCount % FORCE_UPDATE_INT
= 0` and the rotating pass otherwise, then flush the whole buffer to the
presentation surface (`flushPixelUpdates`). -/
def imgHeartbeat (cast : Vec → Vec → Option RayHit) (shadowCast : Vec → Vec → Bool)
    (lightDirection : Vec) (dT : ℚ) (s : ImgState) : ImgState :=
  let t := s.refresh_timer + dT
  if t < 1/20 then { s with refresh_timer := t }
  else
    let s1 := { s with refresh_timer := 0, shadowLimiter := 0,
                       globalFrameCount := s.globalFrameCount + 1 }
    let s2 :=
      if s1.globalFrameCount % FORCE_UPDATE_INT = 0 then
        imgForcedPass cast shadowCast lightDirection s1.globalFrameCount s1
      else
        imgRotPass cast shadowCast lightDirection s1.globalFrameCount s1
    { s2 with presented := s2.buf }

/-! ## Part variant (`src/server/main.server.ts`) -/

/-- Embeds `fuzzyColorEq` of the server: channelwise closeness below `epsilon`
(0.01 at the call sites). -/
def fuzzyColorEq (r1 g1 b1 r2 g2 b2 epsilon : ℚ) : Bool :=
  decide (qabs (r1 - r2) < epsilon) && decide (qabs (g1 - g2) < epsilon) &&
    decide (qabs (b1 - b2) < epsilon)

/-- Embeds `TrackedPart` of the server: the probe part's stable identity, its
fixed geometric data feeding the primary ray, and the per-sample cache. -/
structure TrackedPart where
  partId : ℕ
  position : Vec
  lookVector : Vec
  lastHitInstance : Option ℕ
  lastHitPosition : Option Vec
  lastHitMaterial : Option ℕ
  lastLightDirection : Option Vec
deriving DecidableEq, Repr

/-- One fixed-size record of the server's `updateBuffer`: 4 floats
(color channels and transparency) and one integer material id, zeroed at
creation (`buffer.create`). -/
structure SrvRec where
  r : ℚ
  g : ℚ
  b : ℚ
  a : ℚ
  mat : ℤ
deriving DecidableEq, Repr

/-- The zero record a fresh `buffer.create` reads back. -/
def srvRecZero : SrvRec := ⟨0, 0, 0, 0, 0⟩

/-- The presentation-side appearance of a part: `Color`, `Transparency`,
`Material`. -/
structure Appearance where
  r : ℚ
  g : ℚ
  b : ℚ
  transparency : ℚ
  material : ℕ
deriving DecidableEq, Repr

/-- Embeds `batchSize` of the server. -/
def srvBatchSize : ℕ := 200

/-- Embeds `maxForceUpdates` of the server's forced branch. -/
def srvMaxForceUpdates : ℕ := 500

/-- Embeds `shadowLimit` of the server's forced branch. -/
def srvForcedShadowLimit : ℕ := 500

/-- Embeds `shadowLimit` of the server's rotating branch. -/
def srvRotShadowLimit : ℕ := 200

/-- Embeds `skybox` constant of the server. -/
def srvSkybox : Bool := true

/-- Opaque material id standing for `Enum.Material.SmoothPlastic`, the
neutral default material of the server's sky branch. -/
def srvSmoothPlastic : ℕ := 0

/-- The server's module state: the tracked parts (`allTrackedParts[0]`),
the sparse delta buffer `updateBuffer` (part index → record), the dirty
index set (as its insertion-ordered list), `partIndexMap` as the ordered
association list it is iterated as, `nextPartIndex`, the parts'
presentation appearance (part id → appearance), the rotating cursor
`index`, frame/timer/limiter state, and ghost instrumentation. -/
structure SrvState where
  parts : List TrackedPart
  updateBuffer : ℕ → SrvRec
  dirtyParts : List ℕ
  partIndexMap : List (ℕ × ℕ)
  nextPartIndex : ℕ
  appearance : ℕ → Appearance
  index : ℕ
  globalFrameCount : ℕ
  refresh_timer : ℚ
  shadowLimiter : ℕ
  primaryCasts : ℕ
  shadowCasts : ℕ
  shadeCount : ℕ
  trace : List ℕ
  lastFlushUpdated : ℕ
  log : List ℕ

/-- Embeds `materialToNumber` of the server (`material.Value || 0`): materials are
embedded as their numeric ids, so this is the identity. -/
def materialToNumber (material : ℕ) : ℤ := (material : ℤ)

/-- Embeds `numberToMaterial` of the server: the enum-item scan inverts
`materialToNumber` on every id the buffer can hold (records are written
through `materialToNumber`, so stored ids are valid), embedded as `toNat`. -/
def numberToMaterial (value : ℤ) : ℕ := value.toNat

/-- Embeds `getPartIndex` of the server: look the part up in `partIndexMap`,
allocating `nextPartIndex` for an unseen part. -/
def getPartIndex (s : SrvState) (pid : ℕ) : ℕ × SrvState :=
  match (s.partIndexMap.find? (fun p => p.1 = pid)).map Prod.snd with
  | some i => (i, s)
  | none =>
    (s.nextPartIndex,
     { s with partIndexMap := s.partIndexMap ++ [(pid, s.nextPartIndex)],
              nextPartIndex := s.nextPartIndex + 1 })

/-- Embeds `bufferPartUpdate` of the server: diff the incoming shade result
against the stored record; when it differs beyond tolerance, overwrite the
record and mark the part's index dirty. -/
def bufferPartUpdate (pid : ℕ) (colorR colorG colorB transparency : ℚ)
    (material : ℕ) (s : SrvState) : SrvState :=
  let pr := getPartIndex s pid
  let partIndex := pr.1
  let s1 := pr.2
  let cur := s1.updateBuffer partIndex
  let materialNum := materialToNumber material
  let needsUpdate : Bool :=
    decide (qabs (cur.r - colorR) > 1/100) || decide (qabs (cur.g - colorG) > 1/100) ||
    decide (qabs (cur.b - colorB) > 1/100) || decide (qabs (cur.a - transparency) > 1/1000) ||
    decide (cur.mat ≠ materialNum)
  if needsUpdate then
    { s1 with
      updateBuffer := fun i =>
        if i = partIndex then ⟨colorR, colorG, colorB, transparency, materialNum⟩
        else s1.updateBuffer i,
      dirtyParts :=
        if partIndex ∈ s1.dirtyParts then s1.dirtyParts
        else s1.dirtyParts ++ [partIndex] }
  else s1

/-- The reverse resolution step of `flushBufferedUpdates`: the linear scan
of `partIndexMap` for the first part mapped to `partIndex`. -/
def resolvePartIndex (m : List (ℕ × ℕ)) (partIndex : ℕ) : Option ℕ :=
  (m.find? (fun p => p.2 = partIndex)).map Prod.fst

/-- Apply one resolved dirty record to a part's appearance, with the
server's per-property guards (`fuzzyColorEq` for color, exact comparison
for transparency and material). -/
def applyRecord (app : Appearance) (rec : SrvRec) : Appearance :=
  let newMaterial := numberToMaterial rec.mat
  let app1 :=
    if !(fuzzyColorEq app.r app.g app.b rec.r rec.g rec.b (1/100)) then
      { app with r := rec.r, g := rec.g, b := rec.b }
    else app
  let app2 :=
    if app1.transparency ≠ rec.a then { app1 with transparency := rec.a } else app1
  if app2.material ≠ newMaterial then { app2 with material := newMaterial } else app2

/-- Embeds `flushBufferedUpdates` of the server: a no-op when nothing is dirty;
otherwise iterate the dirty set, resolve each index back to its part
(skipping, silently, an index the linear scan cannot resolve), apply the
buffered record to resolved parts, count the applied entries
(`updatedCount`, ghost `lastFlushUpdated`), print it when more than 50
entries were applied (ghost `log`), and clear the dirty set. -/
def flushBufferedUpdates (s : SrvState) : SrvState :=
  if s.dirtyParts.length = 0 then s
  else
    let step := fun (acc : (ℕ → Appearance) × ℕ) (partIndex : ℕ) =>
      match resolvePartIndex s.partIndexMap partIndex with
      | none => acc
      | some pid =>
        let rec0 := s.updateBuffer partIndex
        let app1 := applyRecord (acc.1 pid) rec0
        (fun i => if i = pid then app1 else acc.1 i, acc.2 + 1)
    let res := s.dirtyParts.foldl step (s.appearance, 0)
    let updatedCount := res.2
    { s with appearance := res.1,
             dirtyParts := [],
             lastFlushUpdated := updatedCount,
             log := if 50 < updatedCount then s.log ++ [updatedCount] else s.log }

/-- Embeds `isInShadow` of the server: identical limiter behaviour to the client's
(the source additionally sets the self/model exclusion filter, which the
`shadowCast` oracle absorbs). -/
def isInShadowSrv (shadowCast : Vec → Vec → Bool) (position lightDirection : Vec)
    (maxDistance : ℚ) (maxShadowRays : ℕ) (s : SrvState) : Bool × SrvState :=
  if maxShadowRays ≤ s.shadowLimiter then (false, s)
  else
    let s1 := { s with shadowLimiter := s.shadowLimiter + 1,
                       shadowCasts := s.shadowCasts + 1 }
    let offsetPos := vadd position (vmul lightDirection (1/10))
    (shadowCast offsetPos (vmul lightDirection maxDistance), s1)

/-- The server's scene-changed test, clause for clause as `updatePart`
computes it: instance differs, or both positions present and not
`fuzzyEqual` within 0.001, or a hit/miss transition in either direction,
or material differs. -/
def srvSceneChangedB (cachedInst : Option ℕ) (cachedPos : Option Vec)
    (cachedMat : Option ℕ) (curInst : Option ℕ) (curPos : Option Vec)
    (curMat : Option ℕ) : Bool :=
  decide (curInst ≠ cachedInst) ||
  (match curPos, cachedPos with
   | some a, some b => !(fuzzyEqual a b (1/1000))
   | _, _ => false) ||
  (curPos.isSome && !cachedPos.isSome) ||
  (!curPos.isSome && cachedPos.isSome) ||
  decide (curMat ≠ cachedMat)

/-- The server's light-changed test: no cached direction, or not
`fuzzyEqual` to it within 0.001. -/
def srvLightChangedB (cached : Option Vec) (cur : Vec) : Bool :=
  match cached with
  | none => true
  | some c => !(fuzzyEqual cur c (1/1000))

/-- Embeds `updatePart` of the server.  Mirrors `updatePixel` except that the
reshade condition is `sceneChanged || lightChanged` alone: the computed
`forceUpdate` flag is never consulted (exactly as in the source), and the
shaded result goes through `bufferPartUpdate` instead of a direct write. -/
def updatePart (cast : Vec → Vec → Option RayHit) (shadowCast : Vec → Vec → Bool)
    (idx : ℕ) (currentFrame : ℕ) (lightDirection : Vec) (maxShadowRays : ℕ)
    (s : SrvState) : SrvState :=
  match s.parts.get? idx with
  | none => s
  | some data =>
    let rayResult := cast data.position (vmul data.lookVector 100)
    let forceUpdate : Bool := decide (currentFrame % FORCE_UPDATE_INT = 0)
    let hitInstance := rayResult.map RayHit.instanceId
    let hitPosition := rayResult.map RayHit.position
    let hitMaterial := rayResult.map RayHit.material
    let sceneChanged := srvSceneChangedB data.lastHitInstance data.lastHitPosition
      data.lastHitMaterial hitInstance hitPosition hitMaterial
    let lightChanged := srvLightChangedB data.lastLightDirection lightDirection
    let data1 : TrackedPart :=
      { data with lastHitInstance := hitInstance, lastHitPosition := hitPosition,
                  lastHitMaterial := hitMaterial,
                  lastLightDirection := some lightDirection }
    let s1 : SrvState :=
      { s with parts := s.parts.set idx data1,
               primaryCasts := s.primaryCasts + 1 }
    let _unusedForced := forceUpdate
    if sceneChanged || lightChanged then
      let s2 := { s1 with shadeCount := s1.shadeCount + 1 }
      match rayResult with
      | some hit =>
        let testPosition := vadd hit.position (vmul hit.normal (1/10))
        let res := isInShadowSrv shadowCast testPosition lightDirection 300
          maxShadowRays s2
        let s3 := res.2
        if res.1 then
          let r := hit.colorR * (1 - 6/10) + (50 / 255) * (6/10)
          let g := hit.colorG * (1 - 6/10) + (50 / 255) * (6/10)
          let b := hit.colorB * (1 - 6/10) + (100 / 255) * (6/10)
          bufferPartUpdate data.partId r g b (1/100) hit.material s3
        else
          let r := min 1 (hit.colorR * (3/10) + 1 * (4/10))
          let g := min 1 (hit.colorG * (3/10) + 1 * (4/10))
          let b := min 1 (hit.colorB * (3/10) + (200 / 255) * (4/10))
          bufferPartUpdate data.partId r g b 0 hit.material s3
      | none =>
        if srvSkybox then
          let r := (51 / 255) * (1 - 6/10) + 1 * (6/10)
          let g := (168 / 255) * (1 - 6/10) + 1 * (6/10)
          let b := (247 / 255) * (1 - 6/10) + (200 / 255) * (6/10)
          bufferPartUpdate data.partId r g b 0 srvSmoothPlastic s2
        else
          let app := s2.appearance data.partId
          bufferPartUpdate data.partId app.r app.g app.b 1 app.material s2
    else s1

/-- Embeds `rayModel` of the server: the `x_parts × y_parts` grid of probe parts
(outer loop over x, inner over y), each with default Roblox orientation
(`LookVector = (0,0,-1)`) and an empty cache.  Part identities are the
fresh instance ids `x * y_parts + y`. -/
def rayModel (xParts yParts : ℕ) : List TrackedPart :=
  ((List.range xParts).map (fun x =>
    (List.range yParts).map (fun y =>
      { partId := x * yParts + y,
        position := ⟨(x : ℚ), (y : ℚ), 0⟩,
        lookVector := ⟨0, 0, -1⟩,
        lastHitInstance := none,
        lastHitPosition := none,
        lastHitMaterial := none,
        lastLightDirection := none } ))).flatten

/-- One iteration of the server's forced loop. -/
def srvForcedStep (cast : Vec → Vec → Option RayHit) (shadowCast : Vec → Vec → Bool)
    (lightDirection : Vec) (frame : ℕ) (st : SrvState) (i : ℕ) : SrvState :=
  updatePart cast shadowCast i frame lightDirection srvForcedShadowLimit
    { st with trace := st.trace ++ [i] }

/-- The server's forced-refresh pass: parts `0` to
`min parts.length srvMaxForceUpdates - 1` with the forced shadow tier. -/
def srvForcedPass (cast : Vec → Vec → Option RayHit) (shadowCast : Vec → Vec → Bool)
    (lightDirection : Vec) (frame : ℕ) (s : SrvState) : SrvState :=
  (List.range (min s.parts.length srvMaxForceUpdates)).foldl
    (srvForcedStep cast shadowCast lightDirection frame) s

/-- One iteration of the server's rotating loop: record the cursor, update
the part under it with the rotating shadow tier, then advance the cursor
modulo the (re-read) part count. -/
def srvRotStep (cast : Vec → Vec → Option RayHit) (shadowCast : Vec → Vec → Bool)
    (lightDirection : Vec) (frame : ℕ) (st : SrvState) (_i : ℕ) : SrvState :=
  let st1 := updatePart cast shadowCast st.index frame lightDirection
    srvRotShadowLimit { st with trace := st.trace ++ [st.index] }
  { st1 with index := (st1.index + 1) % st1.parts.length }

/-- The server's rotating pass: `srvBatchSize` updates starting at the
cursor, advancing it modulo the (re-read) part count after each update. -/
def srvRotPass (cast : Vec → Vec → Option RayHit) (shadowCast : Vec → Vec → Bool)
    (lightDirection : Vec) (frame : ℕ) (s : SrvState) : SrvState :=
  (List.range srvBatchSize).foldl
    (srvRotStep cast shadowCast lightDirection frame) s

/-- The server's `Heartbeat` callback: time gating, limiter reset, frame
advance, forced-or-rotating pass, then `flushBufferedUpdates`. -/
def srvHeartbeat (cast : Vec → Vec → Option RayHit) (shadowCast : Vec → Vec → Bool)
    (lightDirection : Vec) (dT : ℚ) (s : SrvState) : SrvState :=
  let t := s.refresh_timer + dT
  if t < 1/20 then { s with refresh_timer := t }
  else
    let s1 := { s with refresh_timer := 0, shadowLimiter := 0,
                       globalFrameCount := s.globalFrameCount + 1 }
    let s2 :=
      if s1.globalFrameCount % FORCE_UPDATE_INT = 0 then
        srvForcedPass cast shadowCast lightDirection s1.globalFrameCount s1
      else
        srvRotPass cast shadowCast lightDirection s1.globalFrameCount s1
    flushBufferedUpdates s2

/-! ## Shared concrete fixtures for witnesses and counterexamples -/

/-- A white-surfaced hit (Color3 channels all 1). -/
def cexHitWhite : RayHit := ⟨1, ⟨0, 0, 5⟩, ⟨0, 0, -1⟩, 3, 1, 1, 1⟩

/-- A hit whose surface color is `Color3.fromRGB(200,200,200)`. -/
def cexHit200 : RayHit := ⟨1, ⟨0, 0, 5⟩, ⟨0, 0, -1⟩, 3, 200/255, 200/255, 200/255⟩

/-- A mid-grey hit (channels 1/2). -/
def cexHitHalf : RayHit := ⟨1, ⟨0, 0, 5⟩, ⟨0, 0, -1⟩, 3, 1/2, 1/2, 1/2⟩

/-- A concrete unit light direction. -/
def cexLight : Vec := ⟨1, 0, 0⟩

/-- A pixel with an empty cache. -/
def cexPixelBlank : LightingPixel :=
  { worldPosition := ⟨0, 0, 0⟩, rayDirection := ⟨0, 0, 1⟩,
    lastHitInstance := none, lastHitPosition := none,
    lastHitMaterial := none, lastLightDirection := none }

/-- A one-pixel client state with a zeroed buffer. -/
def cexImgInit : ImgState :=
  { pixelData := [cexPixelBlank], buf := fun _ => 0, presented := fun _ => 0,
    pixelIndex := 0, globalFrameCount := 0, refresh_timer := 0,
    shadowLimiter := 0, primaryCasts := 0, shadowCasts := 0,
    shadeCount := 0, trace := [] }

/-- An oracle whose primary rays always hit `cexHitWhite`. -/
def cexCastWhite : Vec → Vec → Option RayHit := fun _ _ => some cexHitWhite

/-- An oracle whose primary rays always hit `cexHit200`. -/
def cexCast200 : Vec → Vec → Option RayHit := fun _ _ => some cexHit200

/-- An oracle whose primary rays always hit `cexHitHalf`. -/
def cexCastHalf : Vec → Vec → Option RayHit := fun _ _ => some cexHitHalf

/-- A shadow oracle that always reports occlusion. -/
def cexShadowHit : Vec → Vec → Bool := fun _ _ => true

/-- A shadow oracle that never reports occlusion. -/
def cexShadowMiss : Vec → Vec → Bool := fun _ _ => false

/-- A tracked part with an empty cache. -/
def cexPartBlank : TrackedPart :=
  { partId := 0, position := ⟨0, 0, 0⟩, lookVector := ⟨0, 0, -1⟩,
    lastHitInstance := none, lastHitPosition := none,
    lastHitMaterial := none, lastLightDirection := none }

/-- A tracked part whose cache matches what `cexCastWhite` and `cexLight`
produce. -/
def cexPartCached : TrackedPart :=
  { partId := 0, position := ⟨0, 0, 0⟩, lookVector := ⟨0, 0, -1⟩,
    lastHitInstance := some 1, lastHitPosition := some ⟨0, 0, 5⟩,
    lastHitMaterial := some 3, lastLightDirection := some cexLight }

/-- A one-part server state with `cexPartBlank` and clean buffers. -/
def cexSrvInit : SrvState :=
  { parts := [cexPartBlank], updateBuffer := fun _ => srvRecZero, dirtyParts := [],
    partIndexMap := [], nextPartIndex := 0, appearance := fun _ => ⟨1, 0, 0, 0, 0⟩,
    index := 0, globalFrameCount := 9, refresh_timer := 0, shadowLimiter := 0,
    primaryCasts := 0, shadowCasts := 0, shadeCount := 0, trace := [],
    lastFlushUpdated := 0, log := [] }

/-- The `cexSrvInit` state with the already-matching cache of
`cexPartCached`. -/
def cexSrvCached : SrvState := { cexSrvInit with parts := [cexPartCached] }

/-! ## C7: the scene-changed predicate -/

/-- The scene-changed predicate exactly as claim C7 states it: identity
differs, or material differs, or exactly one of the positions is absent,
or both positions are present and differ beyond the 1e-3 tolerance. -/
def specSceneChanged (cachedInst : Option ℕ) (cachedPos : Option Vec)
    (cachedMat : Option ℕ) (curInst : Option ℕ) (curPos : Option Vec)
    (curMat : Option ℕ) : Bool :=
  decide (curInst ≠ cachedInst) || decide (curMat ≠ cachedMat) ||
  (curPos.isSome != cachedPos.isSome) ||
  (match curPos, cachedPos with
   | some a, some b => !(fuzzyEqual a b (1/1000))
   | _, _ => false)

/-- A server state whose `partIndexMap` already maps part 0 to index 0. -/
def cexSrvMapped : SrvState :=
  { cexSrvInit with partIndexMap := [(0, 0)], nextPartIndex := 1 }

/-! ## C1: the forced flag in the part variant -/

/-- A pixel whose cache matches what `cexCastWhite` and `cexLight` produce. -/
def cexPixelCached : LightingPixel :=
  { worldPosition := ⟨0, 0, 0⟩, rayDirection := ⟨0, 0, 1⟩,
    lastHitInstance := some 1, lastHitPosition := some ⟨0, 0, 5⟩,
    lastHitMaterial := some 3, lastLightDirection := some cexLight }

/-- The one-pixel image state with the matching cache. -/
def cexImgCached : ImgState := { cexImgInit with pixelData := [cexPixelCached] }

/-! ## C9: flush of an unresolvable dirty index -/

/-- A sink state in which dirty index 0 has no entry in `partIndexMap`
(its probe is gone) while dirty index 1 resolves to part 7. -/
def cexFlushState : SrvState :=
  { parts := [], dirtyParts := [0, 1], partIndexMap := [(7, 1)], nextPartIndex := 2,
    updateBuffer := fun i =>
      if i = 0 then ⟨1/2, 1/2, 1/2, 1/4, 7⟩
      else if i = 1 then ⟨1/3, 1/3, 1/3, 0, 5⟩ else srvRecZero,
    appearance := fun _ => ⟨0, 0, 0, 0, 0⟩, index := 0, globalFrameCount := 0,
    refresh_timer := 0, shadowLimiter := 0, primaryCasts := 0, shadowCasts := 0,
    shadeCount := 0, trace := [], lastFlushUpdated := 0, log := [] }

/-! ## C2: idempotence under no change -/

/-- The client cache of `pixel` matches what evaluating it against `cast`
and light `L` observes. -/
def imgCacheMatches (cast : Vec → Vec → Option RayHit) (L : Vec)
    (pixel : LightingPixel) : Prop :=
  pixel.lastHitInstance =
      (cast pixel.worldPosition (vmul pixel.rayDirection 100)).map RayHit.instanceId ∧
  pixel.lastHitPosition =
      (cast pixel.worldPosition (vmul pixel.rayDirection 100)).map RayHit.position ∧
  pixel.lastHitMaterial =
      (cast pixel.worldPosition (vmul pixel.rayDirection 100)).map RayHit.material ∧
  pixel.lastLightDirection = some L

/-- The server cache of `data` matches what evaluating it against `cast`
and light `L` observes. -/
def srvCacheMatches (cast : Vec → Vec → Option RayHit) (L : Vec)
    (data : TrackedPart) : Prop :=
  data.lastHitInstance =
      (cast data.position (vmul data.lookVector 100)).map RayHit.instanceId ∧
  data.lastHitPosition =
      (cast data.position (vmul data.lookVector 100)).map RayHit.position ∧
  data.lastHitMaterial =
      (cast data.position (vmul data.lookVector 100)).map RayHit.material ∧
  data.lastLightDirection = some L

/-- Repeated evaluations of one pixel with the scene oracle, the light and
the shadow tier held fixed (`N` consecutive visits). -/
def imgVisitRun (cast : Vec → Vec → Option RayHit) (sc : Vec → Vec → Bool)
    (idx : ℕ) (L : Vec) (m : ℕ) (frames : List ℕ) (s : ImgState) : ImgState :=
  frames.foldl (fun st f => updatePixel cast sc (Int.ofNat idx) f L m st) s

/-- Repeated evaluations of one tracked part with everything held fixed. -/
def srvVisitRun (cast : Vec → Vec → Option RayHit) (sc : Vec → Vec → Bool)
    (idx : ℕ) (L : Vec) (m : ℕ) (frames : List ℕ) (s : SrvState) : SrvState :=
  frames.foldl (fun st f => updatePart cast sc idx f L m st) s

/-- The per-tick oracle/light/frame inputs of one rotating tick. -/
structure TickParams where
  cast : Vec → Vec → Option RayHit
  shadowCast : Vec → Vec → Bool
  light : Vec
  frame : ℕ

/-- A sequence of client rotating ticks, one per parameter record. -/
def runRotImg (ps : List TickParams) (s : ImgState) : ImgState :=
  ps.foldl (fun st p => imgRotPass p.cast p.shadowCast p.light p.frame st) s

/-- A sequence of server rotating ticks, one per parameter record. -/
def runRotSrv (ps : List TickParams) (s : SrvState) : SrvState :=
  ps.foldl (fun st p => srvRotPass p.cast p.shadowCast p.light p.frame st) s

/-- A 4480-part server state mirroring `rayModel(70, 64)` in size, with the
rotating cursor at 0. -/
def cexRotSrvState : SrvState :=
  { cexSrvInit with parts := List.replicate (70 * 64) cexPartBlank }

/-- Fixed per-tick inputs for rotating-tick sequences. -/
def cexTickParams : TickParams :=
  { cast := cexCastWhite, shadowCast := cexShadowHit, light := cexLight, frame := 1 }

/-! ## Proof development: helper lemmas, claim theorems, witnesses and counterexamples -/

/-- The function `qabs` agrees with the absolute value. -/
theorem qabs_eq_abs (q : ℚ) : qabs q = |q| := by
  unfold qabs
  rcases lt_or_le q 0 with h | h
  · rw [if_pos h, abs_of_neg h]
  · rw [if_neg (not_lt.mpr h), abs_of_nonneg h]

/-! ## Shared helper lemmas -/

/-- Writing back the element a list already holds leaves the list unchanged. -/
theorem list_set_get_self {α : Type} (l : List α) (n : ℕ) (v : α)
    (h : l.get? n = some v) : l.set n v = l := by
  induction l generalizing n with
  | nil => simp at h
  | cons a t ih =>
    cases n with
    | zero => simp_all
    | succ k =>
      simp only [List.get?] at h
      simpa using ih k h

/-- The squared norm of a vector is nonnegative. -/
theorem dotV_self_nonneg (v : Vec) : 0 ≤ dotV v v := by
  unfold dotV
  nlinarith [sq_nonneg v.x, sq_nonneg v.y, sq_nonneg v.z]

/-- The exact-real unit-dot test holds on a pair of equal nonzero vectors. -/
theorem dotUnitEqOne_self (v : Vec) (h : dotV v v ≠ 0) : dotUnitEqOne v v = true := by
  have hpos : 0 < dotV v v := lt_of_le_of_ne (dotV_self_nonneg v) (Ne.symm h)
  simp [dotUnitEqOne, hpos]

/-- The test `fuzzyEqual` holds on a pair of equal vectors (positive tolerance). -/
theorem fuzzyEqual_self (v : Vec) (e : ℚ) (h : 0 < e) : fuzzyEqual v v e = true := by
  simp [fuzzyEqual, qabs, h]

/-! ## Claim theorems -/

/-! ## C4: shadow-ray limit tiers -/

/-- C4 counterexample: the claim says the forced-pass shadow-ray limit is
strictly larger than the rotating one in *both* variants, but in the image
variant the forced tier is 200 and the rotating tier is 400, so the forced
limit is not larger there. -/
theorem c4_image_forced_limit_not_larger :
    imgForcedShadowLimit = 200 ∧ imgRotShadowLimit = 400 ∧
      ¬ (imgForcedShadowLimit > imgRotShadowLimit) := by
  refine ⟨rfl, rfl, ?_⟩
  decide

/-- C4 amended: the forced tier is strictly larger than the rotating tier
in the part variant (500 > 200), but strictly smaller in the image variant
(200 < 400). -/
theorem c4_shadow_limit_tiers :
    srvForcedShadowLimit > srvRotShadowLimit ∧
      imgForcedShadowLimit < imgRotShadowLimit := by
  decide

/-- C7 counterexample: at a sample whose cached and current hits share the
instance (id 1) and material (id 3) but whose hit position moved from the
origin to `(5,0,0)` — far beyond the 1e-3 tolerance — the image variant's
scene-changed test is `false`, while the predicate claim C7 states is
`true`: the image variant never consults hit positions. -/
theorem c7_image_scene_changed_ignores_position :
    imgSceneChangedB (some 1) (some 3) (some 1) (some 3) = false ∧
      specSceneChanged (some 1) (some ⟨0, 0, 0⟩) (some 3)
        (some 1) (some ⟨5, 0, 0⟩) (some 3) = true := by
  constructor
  · decide
  · norm_num [specSceneChanged, fuzzyEqual, qabs]

/-- C7 amended: the part variant's scene-changed test agrees with the
claimed predicate on every input; the image variant's test is only the
identity-or-material disjunction (it has no hit/miss or positional
clause).  Hit/miss transitions still flag scene change in the image
variant, but solely because the hit *identity* becomes or ceases to be
`none`. -/
theorem c7_scene_changed_predicates :
    (∀ ci cp cm ii ip im,
        srvSceneChangedB ci cp cm ii ip im = specSceneChanged ci cp cm ii ip im) ∧
      (∀ ci cm ii im,
        imgSceneChangedB ci cm ii im =
          (decide (ii ≠ ci) || decide (im ≠ cm))) := by
  constructor
  · intro ci cp cm ii ip im
    cases ip <;> cases cp <;>
      simp [srvSceneChangedB, specSceneChanged, Bool.or_assoc, Bool.or_comm,
        Bool.or_left_comm]
  · intro ci cm ii im
    rfl

/-! ## C5: the shadow blend -/

/-- C5 counterexample: a white-surfaced hit (`R = 255` on the byte scale)
in shadow is written as `0.4 * 255 + 0.6 * 50 = 132`, not the
`0.6 * 255 + 0.4 * 50 = 173` the claim's 40%-toward-tint formula gives:
the code blends 60% toward the shadow tint (`blendAmount = 0.6`). -/
theorem c5_shadow_blend_is_sixty_percent :
    (updatePixel cexCastWhite cexShadowHit 0 10 cexLight 200 cexImgInit).buf 0 = 132 ∧
      (updatePixel cexCastWhite cexShadowHit 0 10 cexLight 200 cexImgInit).buf 0 ≠
        byteOf ((6/10) * (cexHitWhite.colorR * 255) + (4/10) * 50) := by
  have h : (updatePixel cexCastWhite cexShadowHit 0 10 cexLight 200 cexImgInit).buf 0
      = byteOf (cexHitWhite.colorR * 255 * (1 - 6/10) + 50 * (6/10)) := by
    norm_num [updatePixel, cexImgInit, cexCastWhite, cexShadowHit, cexPixelBlank,
      listGetZ, listSetZ, imgSceneChangedB, imgLightChangedB, isInShadowImg,
      setPixelColor, writeByte, FORCE_UPDATE_INT]
  constructor
  · rw [h]
    norm_num [cexHitWhite, byteOf]
    decide
  · rw [h]
    norm_num [cexHitWhite, byteOf]
    decide

/-- Reducing `listGetZ` at a nonnegative index. -/
theorem listGetZ_ofNat {α : Type} (l : List α) (n : ℕ) :
    listGetZ l (Int.ofNat n) = l.get? n := rfl

/-- Applying `Int.toNat` undoes `Int.ofNat` (definitional). -/
theorem toNat_ofNat_eq (n : ℕ) : (Int.ofNat n).toNat = n := rfl

/-- Reducing `listSetZ` at a nonnegative index. -/
theorem listSetZ_ofNat {α : Type} (l : List α) (n : ℕ) (v : α) :
    listSetZ l (Int.ofNat n) v = l.set n v := rfl

theorem c5img
    (cast : Vec → Vec → Option RayHit) (shadowCast : Vec → Vec → Bool)
    (idx frame m : ℕ) (L : Vec) (s : ImgState) (pixel : LightingPixel) (hit : RayHit)
    (hpx : s.pixelData.get? idx = some pixel)
    (hcast : cast pixel.worldPosition (vmul pixel.rayDirection 100) = some hit)
    (hfr : frame % FORCE_UPDATE_INT = 0)
    (hlim : s.shadowLimiter < m)
    (hsh : shadowCast (vadd (vadd hit.position (vmul hit.normal (1/10))) (vmul L (1/10)))
        (vmul L 300) = true) :
    (updatePixel cast shadowCast (Int.ofNat idx) frame L m s).buf (idx * 4) =
        byteOf ((4/10) * (hit.colorR * 255) + (6/10) * 50) ∧
    (updatePixel cast shadowCast (Int.ofNat idx) frame L m s).buf (idx * 4 + 1) =
        byteOf ((4/10) * (hit.colorG * 255) + (6/10) * 50) ∧
    (updatePixel cast shadowCast (Int.ofNat idx) frame L m s).buf (idx * 4 + 2) =
        byteOf ((4/10) * (hit.colorB * 255) + (6/10) * 100) ∧
    (updatePixel cast shadowCast (Int.ofNat idx) frame L m s).buf (idx * 4 + 3) =
        byteOf 255 := by
  have hforce : (decide (frame % FORCE_UPDATE_INT = 0)) = true := by simp [hfr]
  have hnot : ¬ (m ≤ s.shadowLimiter) := Nat.not_le.mpr hlim
  unfold updatePixel
  simp only [listGetZ_ofNat, hpx, hforce, Bool.or_true, if_true, hcast,
    isInShadowImg, hnot, if_false, ite_false, hsh, toNat_ofNat_eq,
    setPixelColor, writeByte]
  refine ⟨?_, ?_, ?_, ?_⟩ <;> ring_nf
  · rw [if_neg (by omega), if_neg (by omega), if_neg (by omega)]
  · rw [if_neg (by omega), if_neg (by omega)]
  · rw [if_neg (by omega)]

theorem c5srv
    (cast : Vec → Vec → Option RayHit) (shadowCast : Vec → Vec → Bool)
    (idx frame m pIdx : ℕ) (L : Vec) (s : SrvState) (data : TrackedPart) (hit : RayHit)
    (hpt : s.parts.get? idx = some data)
    (hcast : cast data.position (vmul data.lookVector 100) = some hit)
    (hlight : data.lastLightDirection = none)
    (hlim : s.shadowLimiter < m)
    (hsh : shadowCast (vadd (vadd hit.position (vmul hit.normal (1/10))) (vmul L (1/10)))
        (vmul L 300) = true)
    (hfind : (s.partIndexMap.find? (fun p => p.1 = data.partId)).map Prod.snd = some pIdx)
    (hmat : (s.updateBuffer pIdx).mat ≠ materialToNumber hit.material) :
    (updatePart cast shadowCast idx frame L m s).updateBuffer pIdx =
        ⟨(4/10) * hit.colorR + (6/10) * (50/255),
         (4/10) * hit.colorG + (6/10) * (50/255),
         (4/10) * hit.colorB + (6/10) * (100/255),
         1/100, materialToNumber hit.material⟩ ∧
    pIdx ∈ (updatePart cast shadowCast idx frame L m s).dirtyParts := by
  have hnot : ¬ (m ≤ s.shadowLimiter) := Nat.not_le.mpr hlim
  have hmatB : (decide ((s.updateBuffer pIdx).mat ≠ materialToNumber hit.material)) = true := by
    simp [hmat]
  unfold updatePart
  simp only [hpt, hcast, hlight, srvLightChangedB, Bool.or_true,
    isInShadowSrv, hnot, if_false, ite_false, hsh, if_true,
    bufferPartUpdate, getPartIndex, hfind, hmatB, Bool.or_true]
  constructor
  · congr 1 <;> ring
  · split <;> simp_all

/-- C5 amended: a hit sample whose shadow test returns `true` is written as
the hit color blended **60%** toward the shadow tint `(50,50,100)` — each
channel `0.4 * surface + 0.6 * tint` — with near-opaque output (alpha 255
in the image variant, transparency 0.01 in the part variant) and, in the
part variant, the hit surface's material.  Image variant on byte scale,
part variant on the `[0,1]` scale (tint `50/255` etc.). -/
theorem c5_shadow_blend_amended :
    (∀ (cast : Vec → Vec → Option RayHit) (shadowCast : Vec → Vec → Bool)
        (idx frame m : ℕ) (L : Vec) (s : ImgState) (pixel : LightingPixel) (hit : RayHit),
        s.pixelData.get? idx = some pixel →
        cast pixel.worldPosition (vmul pixel.rayDirection 100) = some hit →
        frame % FORCE_UPDATE_INT = 0 →
        s.shadowLimiter < m →
        shadowCast (vadd (vadd hit.position (vmul hit.normal (1/10))) (vmul L (1/10)))
            (vmul L 300) = true →
        (updatePixel cast shadowCast (Int.ofNat idx) frame L m s).buf (idx * 4) =
            byteOf ((4/10) * (hit.colorR * 255) + (6/10) * 50) ∧
        (updatePixel cast shadowCast (Int.ofNat idx) frame L m s).buf (idx * 4 + 1) =
            byteOf ((4/10) * (hit.colorG * 255) + (6/10) * 50) ∧
        (updatePixel cast shadowCast (Int.ofNat idx) frame L m s).buf (idx * 4 + 2) =
            byteOf ((4/10) * (hit.colorB * 255) + (6/10) * 100) ∧
        (updatePixel cast shadowCast (Int.ofNat idx) frame L m s).buf (idx * 4 + 3) =
            byteOf 255) ∧
    (∀ (cast : Vec → Vec → Option RayHit) (shadowCast : Vec → Vec → Bool)
        (idx frame m pIdx : ℕ) (L : Vec) (s : SrvState) (data : TrackedPart) (hit : RayHit),
        s.parts.get? idx = some data →
        cast data.position (vmul data.lookVector 100) = some hit →
        data.lastLightDirection = none →
        s.shadowLimiter < m →
        shadowCast (vadd (vadd hit.position (vmul hit.normal (1/10))) (vmul L (1/10)))
            (vmul L 300) = true →
        (s.partIndexMap.find? (fun p => p.1 = data.partId)).map Prod.snd = some pIdx →
        (s.updateBuffer pIdx).mat ≠ materialToNumber hit.material →
        (updatePart cast shadowCast idx frame L m s).updateBuffer pIdx =
            ⟨(4/10) * hit.colorR + (6/10) * (50/255),
             (4/10) * hit.colorG + (6/10) * (50/255),
             (4/10) * hit.colorB + (6/10) * (100/255),
             1/100, materialToNumber hit.material⟩ ∧
        pIdx ∈ (updatePart cast shadowCast idx frame L m s).dirtyParts) := by
  constructor
  · intro cast shadowCast idx frame m L s pixel hit hpx hcast hfr hlim hsh
    exact c5img cast shadowCast idx frame m L s pixel hit hpx hcast hfr hlim hsh
  · intro cast shadowCast idx frame m pIdx L s data hit hpt hcast hlight hlim hsh hfind hmat
    exact c5srv cast shadowCast idx frame m pIdx L s data hit hpt hcast hlight hlim hsh
      hfind hmat

/-- C5 witness: the amended shadow-blend law at concrete inputs — a white
hit in shadow on a forced frame in the one-pixel image state, and the
mapped one-part server state. -/
theorem c5_shadow_blend_amended_witness :
    ((updatePixel cexCastWhite cexShadowHit (Int.ofNat 0) 10 cexLight 200 cexImgInit).buf 0 =
        byteOf ((4/10) * (cexHitWhite.colorR * 255) + (6/10) * 50) ∧
      (updatePart cexCastWhite cexShadowHit 0 10 cexLight 500 cexSrvMapped).updateBuffer 0 =
        ⟨(4/10) * cexHitWhite.colorR + (6/10) * (50/255),
         (4/10) * cexHitWhite.colorG + (6/10) * (50/255),
         (4/10) * cexHitWhite.colorB + (6/10) * (100/255),
         1/100, materialToNumber cexHitWhite.material⟩) := by
  have himg := c5_shadow_blend_amended.1 cexCastWhite cexShadowHit 0 10 200 cexLight
    cexImgInit cexPixelBlank cexHitWhite rfl rfl rfl (by decide) rfl
  have hsrv := c5_shadow_blend_amended.2 cexCastWhite cexShadowHit 0 10 500 0 cexLight
    cexSrvMapped cexPartBlank cexHitWhite rfl rfl rfl (by decide) rfl rfl (by decide)
  exact ⟨himg.1, hsrv.1⟩

theorem c6img
    (cast : Vec → Vec → Option RayHit) (shadowCast : Vec → Vec → Bool)
    (idx frame m : ℕ) (L : Vec) (s : ImgState) (pixel : LightingPixel) (hit : RayHit)
    (hpx : s.pixelData.get? idx = some pixel)
    (hcast : cast pixel.worldPosition (vmul pixel.rayDirection 100) = some hit)
    (hfr : frame % FORCE_UPDATE_INT = 0)
    (hsh : shadowCast (vadd (vadd hit.position (vmul hit.normal (1/10))) (vmul L (1/10)))
        (vmul L 300) = false) :
    (updatePixel cast shadowCast (Int.ofNat idx) frame L m s).buf (idx * 4) =
        byteOf (min 255 ((3/10) * (hit.colorR * 255) + (4/10) * 255)) ∧
    (updatePixel cast shadowCast (Int.ofNat idx) frame L m s).buf (idx * 4 + 1) =
        byteOf (min 255 ((3/10) * (hit.colorG * 255) + (4/10) * 255)) ∧
    (updatePixel cast shadowCast (Int.ofNat idx) frame L m s).buf (idx * 4 + 2) =
        byteOf (min 255 ((3/10) * (hit.colorB * 255) + (4/10) * 200)) ∧
    (updatePixel cast shadowCast (Int.ofNat idx) frame L m s).buf (idx * 4 + 3) =
        byteOf 255 := by
  have hforce : (decide (frame % FORCE_UPDATE_INT = 0)) = true := by simp [hfr]
  rcases Nat.lt_or_ge s.shadowLimiter m with hlim | hlim
  · have hnot : ¬ (m ≤ s.shadowLimiter) := Nat.not_le.mpr hlim
    unfold updatePixel
    simp only [listGetZ_ofNat, hpx, hforce, Bool.or_true, if_true, hcast,
      isInShadowImg, hnot, if_false, ite_false, hsh, Bool.false_eq_true,
      toNat_ofNat_eq, setPixelColor, writeByte]
    refine ⟨?_, ?_, ?_, ?_⟩ <;> ring_nf
    all_goals first
      | rfl
      | rw [if_neg (by omega), if_neg (by omega), if_neg (by omega)]
      | rw [if_neg (by omega), if_neg (by omega)]
      | rw [if_neg (by omega)]
  · have hle : m ≤ s.shadowLimiter := hlim
    unfold updatePixel
    simp only [listGetZ_ofNat, hpx, hforce, Bool.or_true, if_true, hcast,
      isInShadowImg, hle, if_true, ite_true, Bool.false_eq_true, if_false,
      ite_false, toNat_ofNat_eq, setPixelColor, writeByte]
    refine ⟨?_, ?_, ?_, ?_⟩ <;> ring_nf
    all_goals first
      | rfl
      | rw [if_neg (by omega), if_neg (by omega), if_neg (by omega)]
      | rw [if_neg (by omega), if_neg (by omega)]
      | rw [if_neg (by omega)]

theorem c6srv
    (cast : Vec → Vec → Option RayHit) (shadowCast : Vec → Vec → Bool)
    (idx frame m pIdx : ℕ) (L : Vec) (s : SrvState) (data : TrackedPart) (hit : RayHit)
    (hpt : s.parts.get? idx = some data)
    (hcast : cast data.position (vmul data.lookVector 100) = some hit)
    (hlight : data.lastLightDirection = none)
    (hsh : shadowCast (vadd (vadd hit.position (vmul hit.normal (1/10))) (vmul L (1/10)))
        (vmul L 300) = false)
    (hfind : (s.partIndexMap.find? (fun p => p.1 = data.partId)).map Prod.snd = some pIdx)
    (hmat : (s.updateBuffer pIdx).mat ≠ materialToNumber hit.material) :
    (updatePart cast shadowCast idx frame L m s).updateBuffer pIdx =
        ⟨min 1 ((3/10) * hit.colorR + (4/10) * 1),
         min 1 ((3/10) * hit.colorG + (4/10) * 1),
         min 1 ((3/10) * hit.colorB + (4/10) * (200/255)),
         0, materialToNumber hit.material⟩ ∧
    pIdx ∈ (updatePart cast shadowCast idx frame L m s).dirtyParts := by
  have hmatB : (decide ((s.updateBuffer pIdx).mat ≠ materialToNumber hit.material)) = true := by
    simp [hmat]
  rcases Nat.lt_or_ge s.shadowLimiter m with hlim | hlim
  · have hnot : ¬ (m ≤ s.shadowLimiter) := Nat.not_le.mpr hlim
    unfold updatePart
    simp only [hpt, hcast, hlight, srvLightChangedB, Bool.or_true,
      isInShadowSrv, hnot, if_false, ite_false, hsh, Bool.false_eq_true,
      if_true, ite_true, bufferPartUpdate, getPartIndex, hfind, hmatB,
      Bool.or_true]
    constructor
    · congr 1 <;> ring
    · split <;> simp_all
  · have hle : m ≤ s.shadowLimiter := hlim
    unfold updatePart
    simp only [hpt, hcast, hlight, srvLightChangedB, Bool.or_true,
      isInShadowSrv, hle, if_true, ite_true, Bool.false_eq_true, if_false,
      ite_false, bufferPartUpdate, getPartIndex, hfind, hmatB, Bool.or_true]
    constructor
    · congr 1 <;> ring
    · split <;> simp_all

/-- C6 counterexample: the part variant also scales the lit surface color
by 0.3, not 0.7.  For a mid-grey hit (`colorR = 1/2`) the buffered lit
color is `min 1 (0.3 * 0.5 + 0.4) = 0.55`, while the claim's part-variant
formula `min 1 (0.7 * 0.5 + 0.4)` gives `0.75`. -/
theorem c6_part_lit_scale_is_point_three :
    ((updatePart cexCastHalf cexShadowMiss 0 1 cexLight 200 cexSrvMapped).updateBuffer 0).r
        = 11/20 ∧
      ((updatePart cexCastHalf cexShadowMiss 0 1 cexLight 200 cexSrvMapped).updateBuffer 0).r
        ≠ min 1 ((7/10) * cexHitHalf.colorR + (4/10) * 1) := by
  have h := (c6srv cexCastHalf cexShadowMiss 0 1 200 0 cexLight cexSrvMapped
    cexPartBlank cexHitHalf rfl rfl rfl rfl rfl (by decide)).1
  rw [h]
  constructor
  · norm_num [cexHitHalf]
  · norm_num [cexHitHalf]

/-- C6 amended: a lit hit sample is written as the hit surface color scaled
by **0.3 in both variants** (not 0.7 in the part variant) plus the warm
light tint `(255,255,200)` at weight 0.4, clamped to the valid range; the
claim's numeric example holds in the image variant: hit color
`(200,200,200)` yields bytes `R = G = 162`, `B = 140`. -/
theorem c6_lit_blend_amended :
    (∀ (cast : Vec → Vec → Option RayHit) (shadowCast : Vec → Vec → Bool)
        (idx frame m : ℕ) (L : Vec) (s : ImgState) (pixel : LightingPixel) (hit : RayHit),
        s.pixelData.get? idx = some pixel →
        cast pixel.worldPosition (vmul pixel.rayDirection 100) = some hit →
        frame % FORCE_UPDATE_INT = 0 →
        shadowCast (vadd (vadd hit.position (vmul hit.normal (1/10))) (vmul L (1/10)))
            (vmul L 300) = false →
        (updatePixel cast shadowCast (Int.ofNat idx) frame L m s).buf (idx * 4) =
            byteOf (min 255 ((3/10) * (hit.colorR * 255) + (4/10) * 255)) ∧
        (updatePixel cast shadowCast (Int.ofNat idx) frame L m s).buf (idx * 4 + 1) =
            byteOf (min 255 ((3/10) * (hit.colorG * 255) + (4/10) * 255)) ∧
        (updatePixel cast shadowCast (Int.ofNat idx) frame L m s).buf (idx * 4 + 2) =
            byteOf (min 255 ((3/10) * (hit.colorB * 255) + (4/10) * 200)) ∧
        (updatePixel cast shadowCast (Int.ofNat idx) frame L m s).buf (idx * 4 + 3) =
            byteOf 255) ∧
    (∀ (cast : Vec → Vec → Option RayHit) (shadowCast : Vec → Vec → Bool)
        (idx frame m pIdx : ℕ) (L : Vec) (s : SrvState) (data : TrackedPart) (hit : RayHit),
        s.parts.get? idx = some data →
        cast data.position (vmul data.lookVector 100) = some hit →
        data.lastLightDirection = none →
        shadowCast (vadd (vadd hit.position (vmul hit.normal (1/10))) (vmul L (1/10)))
            (vmul L 300) = false →
        (s.partIndexMap.find? (fun p => p.1 = data.partId)).map Prod.snd = some pIdx →
        (s.updateBuffer pIdx).mat ≠ materialToNumber hit.material →
        (updatePart cast shadowCast idx frame L m s).updateBuffer pIdx =
            ⟨min 1 ((3/10) * hit.colorR + (4/10) * 1),
             min 1 ((3/10) * hit.colorG + (4/10) * 1),
             min 1 ((3/10) * hit.colorB + (4/10) * (200/255)),
             0, materialToNumber hit.material⟩ ∧
        pIdx ∈ (updatePart cast shadowCast idx frame L m s).dirtyParts) ∧
    ((updatePixel cexCast200 cexShadowMiss (Int.ofNat 0) 10 cexLight 200 cexImgInit).buf 0 = 162 ∧
     (updatePixel cexCast200 cexShadowMiss (Int.ofNat 0) 10 cexLight 200 cexImgInit).buf 1 = 162 ∧
     (updatePixel cexCast200 cexShadowMiss (Int.ofNat 0) 10 cexLight 200 cexImgInit).buf 2 = 140) := by
  refine ⟨?_, ?_, ?_⟩
  · intro cast shadowCast idx frame m L s pixel hit hpx hcast hfr hsh
    exact c6img cast shadowCast idx frame m L s pixel hit hpx hcast hfr hsh
  · intro cast shadowCast idx frame m pIdx L s data hit hpt hcast hlight hsh hfind hmat
    exact c6srv cast shadowCast idx frame m pIdx L s data hit hpt hcast hlight hsh
      hfind hmat
  · have h := c6img cexCast200 cexShadowMiss 0 10 200 cexLight cexImgInit
      cexPixelBlank cexHit200 rfl rfl rfl rfl
    refine ⟨?_, ?_, ?_⟩
    · have := h.1
      rw [show (0 : ℕ) * 4 = 0 from rfl] at this
      rw [this]
      norm_num [cexHit200, byteOf]
      decide
    · have := h.2.1
      rw [show (0 : ℕ) * 4 + 1 = 1 from rfl] at this
      rw [this]
      norm_num [cexHit200, byteOf]
      decide
    · have := h.2.2.1
      rw [show (0 : ℕ) * 4 + 2 = 2 from rfl] at this
      rw [this]
      norm_num [cexHit200, byteOf]
      decide

/-- C6 witness: the amended lit-blend law applied at the concrete
`(200,200,200)` image sample and the mid-grey part sample. -/
theorem c6_lit_blend_amended_witness :
    (updatePixel cexCast200 cexShadowMiss (Int.ofNat 0) 10 cexLight 200 cexImgInit).buf 0 =
        byteOf (min 255 ((3/10) * (cexHit200.colorR * 255) + (4/10) * 255)) ∧
    (updatePart cexCastHalf cexShadowMiss 0 1 cexLight 200 cexSrvMapped).updateBuffer 0 =
        ⟨min 1 ((3/10) * cexHitHalf.colorR + (4/10) * 1),
         min 1 ((3/10) * cexHitHalf.colorG + (4/10) * 1),
         min 1 ((3/10) * cexHitHalf.colorB + (4/10) * (200/255)),
         0, materialToNumber cexHitHalf.material⟩ := by
  have himg := c6_lit_blend_amended.1 cexCast200 cexShadowMiss 0 10 200 cexLight
    cexImgInit cexPixelBlank cexHit200 rfl rfl rfl rfl
  have hsrv := c6_lit_blend_amended.2.1 cexCastHalf cexShadowMiss 0 1 200 0 cexLight
    cexSrvMapped cexPartBlank cexHitHalf rfl rfl rfl rfl rfl (by decide)
  exact ⟨himg.1, hsrv.1⟩

/-- C1, code bug in the part variant: on the forced frame 10 the server's
`updatePart` computes its `forceUpdate` flag but never consults it, so a
part whose cache already matches the current hit and light is *not*
re-shaded and nothing reaches the output sink (`shadeCount` stays 0, no
dirty entry, no buffer write) — while the image variant's `updatePixel`,
in the same situation, honours the forced flag and re-shades. -/
theorem c1_server_ignores_forced_flag :
    10 % FORCE_UPDATE_INT = 0 ∧
    (updatePart cexCastWhite cexShadowHit 0 10 cexLight 500 cexSrvCached).shadeCount = 0 ∧
    (updatePart cexCastWhite cexShadowHit 0 10 cexLight 500 cexSrvCached).dirtyParts = [] ∧
    (updatePart cexCastWhite cexShadowHit 0 10 cexLight 500 cexSrvCached).updateBuffer 0 =
      srvRecZero ∧
    (updatePixel cexCastWhite cexShadowHit (Int.ofNat 0) 10 cexLight 200 cexImgCached).shadeCount
      = 1 := by
  refine ⟨rfl, ?_, ?_, ?_, ?_⟩
  · norm_num [updatePart, cexSrvCached, cexSrvInit, cexPartCached, cexCastWhite,
      cexHitWhite, srvSceneChangedB, srvLightChangedB, fuzzyEqual, qabs, cexLight]
  · norm_num [updatePart, cexSrvCached, cexSrvInit, cexPartCached, cexCastWhite,
      cexHitWhite, srvSceneChangedB, srvLightChangedB, fuzzyEqual, qabs, cexLight]
  · norm_num [updatePart, cexSrvCached, cexSrvInit, cexPartCached, cexCastWhite,
      cexHitWhite, srvSceneChangedB, srvLightChangedB, fuzzyEqual, qabs, cexLight]
  · norm_num [updatePixel, cexImgCached, cexImgInit, cexPixelCached, cexCastWhite,
      cexHitWhite, listGetZ, listSetZ, imgSceneChangedB, imgLightChangedB,
      isInShadowImg, setPixelColor, FORCE_UPDATE_INT]
    split <;> rfl

/-- C9, code bug: flushing a dirty set with an unresolvable index (0) and a
resolvable one (1 → part 7) silently skips the former, applies the latter,
clears the whole dirty set and raises nothing — but the skip is neither
logged nor counted: `updatedCount` (ghost `lastFlushUpdated`) is 1,
counting only the applied entry, and the flush log stays empty, against
the spec's requirement that the skip be logged/counted. -/
theorem c9_flush_skip_unlogged :
    (flushBufferedUpdates cexFlushState).dirtyParts = [] ∧
    (flushBufferedUpdates cexFlushState).appearance 7 = ⟨1/3, 1/3, 1/3, 0, 5⟩ ∧
    (flushBufferedUpdates cexFlushState).appearance 9 = cexFlushState.appearance 9 ∧
    (flushBufferedUpdates cexFlushState).lastFlushUpdated = 1 ∧
    (flushBufferedUpdates cexFlushState).log = [] := by
  refine ⟨?_, ?_, ?_, ?_, ?_⟩ <;>
    norm_num [flushBufferedUpdates, cexFlushState, resolvePartIndex, applyRecord,
      numberToMaterial, fuzzyColorEq, qabs, List.find?, srvRecZero] <;>
    simp

/-- Whatever branch it takes, `updatePixel` overwrites the visited pixel's
cache with the currently observed hit and light state. -/
theorem updatePixel_pixelData (cast : Vec → Vec → Option RayHit)
    (sc : Vec → Vec → Bool) (idx f m : ℕ) (L : Vec) (s : ImgState)
    (pixel : LightingPixel) (hpx : s.pixelData.get? idx = some pixel) :
    (updatePixel cast sc (Int.ofNat idx) f L m s).pixelData =
      s.pixelData.set idx
        { pixel with
          lastHitInstance :=
            (cast pixel.worldPosition (vmul pixel.rayDirection 100)).map RayHit.instanceId,
          lastHitPosition :=
            (cast pixel.worldPosition (vmul pixel.rayDirection 100)).map RayHit.position,
          lastHitMaterial :=
            (cast pixel.worldPosition (vmul pixel.rayDirection 100)).map RayHit.material,
          lastLightDirection := some L } := by
  unfold updatePixel
  simp only [listGetZ_ofNat, hpx, listSetZ_ofNat]
  split
  · rcases h : cast pixel.worldPosition (vmul pixel.rayDirection 100) with _ | hit
    · simp [h, setPixelColor]
    · simp only [h, setPixelColor, isInShadowImg]
      split
      · simp
      · split <;> simp
  · rfl

/-- A client evaluation whose cache already matches the observed scene and
light, on a non-forced frame, changes nothing but the ghost primary-ray
counter: no reshade, no write, no shadow query, no cache change. -/
theorem updatePixel_noop (cast : Vec → Vec → Option RayHit)
    (sc : Vec → Vec → Bool) (idx f m : ℕ) (L : Vec) (s : ImgState)
    (pixel : LightingPixel) (hpx : s.pixelData.get? idx = some pixel)
    (hmatch : imgCacheMatches cast L pixel)
    (hfr : f % FORCE_UPDATE_INT ≠ 0) (hL : dotV L L ≠ 0) :
    updatePixel cast sc (Int.ofNat idx) f L m s =
      { s with primaryCasts := s.primaryCasts + 1 } := by
  obtain ⟨h1, h2, h3, h4⟩ := hmatch
  have hforce : (decide (f % FORCE_UPDATE_INT = 0)) = false := by simp [hfr]
  have hscene : imgSceneChangedB pixel.lastHitInstance pixel.lastHitMaterial
      ((cast pixel.worldPosition (vmul pixel.rayDirection 100)).map RayHit.instanceId)
      ((cast pixel.worldPosition (vmul pixel.rayDirection 100)).map RayHit.material)
      = false := by
    simp [imgSceneChangedB, h1, h3]
  have hlight : imgLightChangedB pixel.lastLightDirection L = false := by
    rw [h4]
    simp [imgLightChangedB, dotUnitEqOne_self L hL]
  have hpx1 : { pixel with
      lastHitInstance :=
        (cast pixel.worldPosition (vmul pixel.rayDirection 100)).map RayHit.instanceId,
      lastHitPosition :=
        (cast pixel.worldPosition (vmul pixel.rayDirection 100)).map RayHit.position,
      lastHitMaterial :=
        (cast pixel.worldPosition (vmul pixel.rayDirection 100)).map RayHit.material,
      lastLightDirection := some L } = pixel := by
    cases pixel
    simp_all
  unfold updatePixel
  simp only [listGetZ_ofNat, hpx, listSetZ_ofNat, hscene, hlight, hforce,
    Bool.or_self, Bool.or_false, Bool.false_eq_true, if_false, ite_false, hpx1,
    list_set_get_self s.pixelData idx pixel hpx]

/-- Whatever branch it takes, `updatePart` overwrites the visited part's
cache with the currently observed hit and light state. -/
theorem updatePart_parts (cast : Vec → Vec → Option RayHit)
    (sc : Vec → Vec → Bool) (idx f m : ℕ) (L : Vec) (s : SrvState)
    (data : TrackedPart) (hpt : s.parts.get? idx = some data) :
    (updatePart cast sc idx f L m s).parts =
      s.parts.set idx
        { data with
          lastHitInstance :=
            (cast data.position (vmul data.lookVector 100)).map RayHit.instanceId,
          lastHitPosition :=
            (cast data.position (vmul data.lookVector 100)).map RayHit.position,
          lastHitMaterial :=
            (cast data.position (vmul data.lookVector 100)).map RayHit.material,
          lastLightDirection := some L } := by
  unfold updatePart
  simp only [hpt]
  split
  · rcases h : cast data.position (vmul data.lookVector 100) with _ | hit
    · simp only [h, bufferPartUpdate, getPartIndex]
      split
      · split <;> (first | (split <;> simp) | simp)
      · split <;> (first | (split <;> simp) | simp)
    · simp only [h, isInShadowSrv, bufferPartUpdate, getPartIndex]
      split <;> split <;>
        (first
          | (split <;> (first | (split <;> simp) | simp))
          | (split <;> simp)
          | simp)
  · rfl

/-- A server evaluation whose cache already matches, regardless of frame
(the forced flag is ignored by `updatePart`), changes nothing but the
ghost primary-ray counter. -/
theorem updatePart_noop (cast : Vec → Vec → Option RayHit)
    (sc : Vec → Vec → Bool) (idx f m : ℕ) (L : Vec) (s : SrvState)
    (data : TrackedPart) (hpt : s.parts.get? idx = some data)
    (hmatch : srvCacheMatches cast L data) :
    updatePart cast sc idx f L m s =
      { s with primaryCasts := s.primaryCasts + 1 } := by
  obtain ⟨h1, h2, h3, h4⟩ := hmatch
  have heps : (0 : ℚ) < 1/1000 := by norm_num
  have hscene : srvSceneChangedB data.lastHitInstance data.lastHitPosition
      data.lastHitMaterial
      ((cast data.position (vmul data.lookVector 100)).map RayHit.instanceId)
      ((cast data.position (vmul data.lookVector 100)).map RayHit.position)
      ((cast data.position (vmul data.lookVector 100)).map RayHit.material)
      = false := by
    cases hc : cast data.position (vmul data.lookVector 100) with
    | none => simp [srvSceneChangedB, h1, h2, h3, hc]
    | some hit =>
      simp [srvSceneChangedB, h1, h2, h3, hc]
      exact fuzzyEqual_self hit.position _ (by norm_num)
  have hlight : srvLightChangedB data.lastLightDirection L = false := by
    rw [h4]
    simp only [srvLightChangedB]
    rw [fuzzyEqual_self L (1/1000) heps]
    rfl
  have hpt1 : { data with
      lastHitInstance :=
        (cast data.position (vmul data.lookVector 100)).map RayHit.instanceId,
      lastHitPosition :=
        (cast data.position (vmul data.lookVector 100)).map RayHit.position,
      lastHitMaterial :=
        (cast data.position (vmul data.lookVector 100)).map RayHit.material,
      lastLightDirection := some L } = data := by
    cases data
    simp_all
  unfold updatePart
  simp only [hpt, hscene, hlight, Bool.or_self, Bool.or_false, Bool.false_eq_true,
    if_false, ite_false, hpt1, list_set_get_self s.parts idx data hpt]

/-- Reading back an element just written into range. -/
theorem list_get_set {α : Type} (l : List α) (n : ℕ) (a : α) (h : n < l.length) :
    (l.set n a).get? n = some a := by
  induction l generalizing n with
  | nil => simp at h
  | cons b t ih =>
    cases n with
    | zero => simp
    | succ k => simpa using ih k (by simpa using h)

/-- An index `get?` resolves is in range. -/
theorem list_get_lt {α : Type} (l : List α) (n : ℕ) (v : α) (h : l.get? n = some v) :
    n < l.length :=
  (List.get?_eq_some.mp h).1

/-- One evaluation takes the reshade branch at most once. -/
theorem updatePixel_shadeCount_le (cast : Vec → Vec → Option RayHit)
    (sc : Vec → Vec → Bool) (i : ℤ) (f m : ℕ) (L : Vec) (s : ImgState) :
    (updatePixel cast sc i f L m s).shadeCount ≤ s.shadeCount + 1 := by
  unfold updatePixel
  split
  · exact Nat.le_succ _
  · dsimp only
    split
    · split
      · simp only [setPixelColor, isInShadowImg]
        split
        · simp
        · split <;> simp
      · simp [setPixelColor]
    · exact Nat.le_succ _

/-- A run over a pixel whose cache already matches is pure ghost traffic. -/
theorem imgVisitRun_noop (cast : Vec → Vec → Option RayHit) (sc : Vec → Vec → Bool)
    (idx : ℕ) (L : Vec) (m : ℕ) (frames : List ℕ) (s : ImgState)
    (pixel : LightingPixel) (hpx : s.pixelData.get? idx = some pixel)
    (hmatch : imgCacheMatches cast L pixel)
    (hfr : ∀ f ∈ frames, f % FORCE_UPDATE_INT ≠ 0) (hL : dotV L L ≠ 0) :
    imgVisitRun cast sc idx L m frames s =
      { s with primaryCasts := s.primaryCasts + frames.length } := by
  induction frames generalizing s with
  | nil =>
    simp only [imgVisitRun, List.foldl_nil, List.length_nil, Nat.add_zero]
  | cons f rest ih =>
    have hstep := updatePixel_noop cast sc idx f m L s pixel hpx hmatch
      (hfr f (List.mem_cons_self f rest)) hL
    have hrest := ih { s with primaryCasts := s.primaryCasts + 1 } hpx
      (fun g hg => hfr g (List.mem_cons_of_mem f hg))
    simp only [imgVisitRun, List.foldl_cons] at *
    rw [hstep, hrest]
    simp only [List.length_cons]
    congr 1
    omega

/-- A run over a part whose cache already matches is pure ghost traffic. -/
theorem srvVisitRun_noop (cast : Vec → Vec → Option RayHit) (sc : Vec → Vec → Bool)
    (idx : ℕ) (L : Vec) (m : ℕ) (frames : List ℕ) (s : SrvState)
    (data : TrackedPart) (hpt : s.parts.get? idx = some data)
    (hmatch : srvCacheMatches cast L data) :
    srvVisitRun cast sc idx L m frames s =
      { s with primaryCasts := s.primaryCasts + frames.length } := by
  induction frames generalizing s with
  | nil =>
    simp only [srvVisitRun, List.foldl_nil, List.length_nil, Nat.add_zero]
  | cons f rest ih =>
    have hstep := updatePart_noop cast sc idx f m L s data hpt hmatch
    have hrest := ih { s with primaryCasts := s.primaryCasts + 1 } hpt
    simp only [srvVisitRun, List.foldl_cons] at *
    rw [hstep, hrest]
    simp only [List.length_cons]
    congr 1
    omega

/-- One server evaluation takes the reshade branch at most once. -/
theorem updatePart_shadeCount_le (cast : Vec → Vec → Option RayHit)
    (sc : Vec → Vec → Bool) (i f m : ℕ) (L : Vec) (s : SrvState) :
    (updatePart cast sc i f L m s).shadeCount ≤ s.shadeCount + 1 := by
  unfold updatePart
  split
  · exact Nat.le_succ _
  · dsimp only
    split
    · split
      · simp only [isInShadowSrv, bufferPartUpdate, getPartIndex]
        split <;> split <;> (try split) <;> (try split) <;> simp
      · simp only [bufferPartUpdate, getPartIndex]
        split <;> split <;> (try split) <;> simp
    · exact Nat.le_succ _

/-- C2: with the scene oracle and light held fixed over any number of
rotating (non-forced) visits, a sample whose cache matches the observation
sees both change tests `false` and is never re-shaded (the whole visit run
changes nothing but the ghost primary-ray counter), and from an arbitrary
starting cache a visit run re-shades at most once — the first visit
overwrites the cache, so every later visit is suppressed.  Both variants. -/
theorem c2_idempotent_under_no_change :
    (∀ (cast : Vec → Vec → Option RayHit) (L : Vec) (pixel : LightingPixel),
        imgCacheMatches cast L pixel → dotV L L ≠ 0 →
        imgSceneChangedB pixel.lastHitInstance pixel.lastHitMaterial
            ((cast pixel.worldPosition (vmul pixel.rayDirection 100)).map RayHit.instanceId)
            ((cast pixel.worldPosition (vmul pixel.rayDirection 100)).map RayHit.material)
          = false ∧
        imgLightChangedB pixel.lastLightDirection L = false) ∧
    (∀ (cast : Vec → Vec → Option RayHit) (sc : Vec → Vec → Bool)
        (idx : ℕ) (L : Vec) (m : ℕ) (frames : List ℕ) (s : ImgState)
        (pixel : LightingPixel),
        s.pixelData.get? idx = some pixel → imgCacheMatches cast L pixel →
        (∀ f ∈ frames, f % FORCE_UPDATE_INT ≠ 0) → dotV L L ≠ 0 →
        imgVisitRun cast sc idx L m frames s =
          { s with primaryCasts := s.primaryCasts + frames.length }) ∧
    (∀ (cast : Vec → Vec → Option RayHit) (sc : Vec → Vec → Bool)
        (idx : ℕ) (L : Vec) (m : ℕ) (frames : List ℕ) (s : ImgState)
        (pixel : LightingPixel),
        s.pixelData.get? idx = some pixel →
        (∀ f ∈ frames, f % FORCE_UPDATE_INT ≠ 0) → dotV L L ≠ 0 →
        (imgVisitRun cast sc idx L m frames s).shadeCount ≤ s.shadeCount + 1) ∧
    (∀ (cast : Vec → Vec → Option RayHit) (sc : Vec → Vec → Bool)
        (idx : ℕ) (L : Vec) (m : ℕ) (frames : List ℕ) (s : SrvState)
        (data : TrackedPart),
        s.parts.get? idx = some data → srvCacheMatches cast L data →
        srvVisitRun cast sc idx L m frames s =
          { s with primaryCasts := s.primaryCasts + frames.length }) ∧
    (∀ (cast : Vec → Vec → Option RayHit) (sc : Vec → Vec → Bool)
        (idx : ℕ) (L : Vec) (m : ℕ) (frames : List ℕ) (s : SrvState)
        (data : TrackedPart),
        s.parts.get? idx = some data →
        (srvVisitRun cast sc idx L m frames s).shadeCount ≤ s.shadeCount + 1) := by
  refine ⟨?_, ?_, ?_, ?_, ?_⟩
  · intro cast L pixel hmatch hL
    obtain ⟨h1, h2, h3, h4⟩ := hmatch
    constructor
    · simp [imgSceneChangedB, h1, h3]
    · rw [h4]
      simp [imgLightChangedB, dotUnitEqOne_self L hL]
  · intro cast sc idx L m frames s pixel hpx hmatch hfr hL
    exact imgVisitRun_noop cast sc idx L m frames s pixel hpx hmatch hfr hL
  · intro cast sc idx L m frames s pixel hpx hfr hL
    cases frames with
    | nil => simp [imgVisitRun]
    | cons f rest =>
      have hlen : idx < s.pixelData.length := list_get_lt _ _ _ hpx
      have hdata := updatePixel_pixelData cast sc idx f m L s pixel hpx
      have hget1 : (updatePixel cast sc (Int.ofNat idx) f L m s).pixelData.get? idx
          = some { pixel with
              lastHitInstance :=
                (cast pixel.worldPosition (vmul pixel.rayDirection 100)).map RayHit.instanceId,
              lastHitPosition :=
                (cast pixel.worldPosition (vmul pixel.rayDirection 100)).map RayHit.position,
              lastHitMaterial :=
                (cast pixel.worldPosition (vmul pixel.rayDirection 100)).map RayHit.material,
              lastLightDirection := some L } := by
        rw [hdata]
        exact list_get_set _ _ _ hlen
      have hnoop := imgVisitRun_noop cast sc idx L m rest
        (updatePixel cast sc (Int.ofNat idx) f L m s) _ hget1 ⟨rfl, rfl, rfl, rfl⟩
        (fun g hg => hfr g (List.mem_cons_of_mem f hg)) hL
      simp only [imgVisitRun, List.foldl_cons] at *
      rw [hnoop]
      exact updatePixel_shadeCount_le cast sc (Int.ofNat idx) f m L s
  · intro cast sc idx L m frames s data hpt hmatch
    exact srvVisitRun_noop cast sc idx L m frames s data hpt hmatch
  · intro cast sc idx L m frames s data hpt
    cases frames with
    | nil => simp [srvVisitRun]
    | cons f rest =>
      have hlen : idx < s.parts.length := list_get_lt _ _ _ hpt
      have hdata := updatePart_parts cast sc idx f m L s data hpt
      have hget1 : (updatePart cast sc idx f L m s).parts.get? idx
          = some { data with
              lastHitInstance :=
                (cast data.position (vmul data.lookVector 100)).map RayHit.instanceId,
              lastHitPosition :=
                (cast data.position (vmul data.lookVector 100)).map RayHit.position,
              lastHitMaterial :=
                (cast data.position (vmul data.lookVector 100)).map RayHit.material,
              lastLightDirection := some L } := by
        rw [hdata]
        exact list_get_set _ _ _ hlen
      have hnoop := srvVisitRun_noop cast sc idx L m rest
        (updatePart cast sc idx f L m s) _ hget1 ⟨rfl, rfl, rfl, rfl⟩
      simp only [srvVisitRun, List.foldl_cons] at *
      rw [hnoop]
      exact updatePart_shadeCount_le cast sc idx f m L s

/-- C2 witness: three fixed-scene rotating visits to the blank one-pixel
state re-shade at most once, and a two-visit run over the already-matching
one-part server state is a pure ghost no-op. -/
theorem c2_idempotent_under_no_change_witness :
    (imgVisitRun cexCastWhite cexShadowHit 0 cexLight 400 [1, 2, 3] cexImgInit).shadeCount
        ≤ cexImgInit.shadeCount + 1 ∧
    srvVisitRun cexCastWhite cexShadowHit 0 cexLight 200 [1, 2] cexSrvCached =
      { cexSrvCached with primaryCasts := cexSrvCached.primaryCasts + 2 } := by
  constructor
  · exact c2_idempotent_under_no_change.2.2.1 cexCastWhite cexShadowHit 0 cexLight 400
      [1, 2, 3] cexImgInit cexPixelBlank rfl (by decide) (by norm_num [dotV, cexLight])
  · exact c2_idempotent_under_no_change.2.2.2.1 cexCastWhite cexShadowHit 0 cexLight 200
      [1, 2] cexSrvCached cexPartCached rfl ⟨rfl, rfl, rfl, rfl⟩

/-! ## C3: the shadow-ray budget -/

/-- Each client evaluation either leaves the limiter and the issued-ray
count untouched, or — only when the limiter is still below the tier —
increments both by exactly one. -/
theorem updatePixel_shadowStep (cast : Vec → Vec → Option RayHit)
    (sc : Vec → Vec → Bool) (i : ℤ) (f m : ℕ) (L : Vec) (s : ImgState) :
    ((updatePixel cast sc i f L m s).shadowLimiter = s.shadowLimiter ∧
      (updatePixel cast sc i f L m s).shadowCasts = s.shadowCasts) ∨
    (s.shadowLimiter < m ∧
      (updatePixel cast sc i f L m s).shadowLimiter = s.shadowLimiter + 1 ∧
      (updatePixel cast sc i f L m s).shadowCasts = s.shadowCasts + 1) := by
  unfold updatePixel
  split
  · exact Or.inl ⟨rfl, rfl⟩
  · dsimp only
    split
    · split
      · simp only [setPixelColor, isInShadowImg]
        split
        · split
          · left
            constructor <;> rfl
          · left
            constructor <;> rfl
        · rename_i hlt
          right
          refine ⟨by simpa using Nat.lt_of_not_le (by simpa using hlt), ?_⟩
          split <;> exact ⟨rfl, rfl⟩
      · left
        simp [setPixelColor]
    · exact Or.inl ⟨rfl, rfl⟩

/-- Folding any step with the one-ray-per-acquire property keeps the
limiter below (the max with) the tier and moves the issued-ray counter in
lockstep with the limiter. -/
theorem foldl_shadow_bound {α : Type} (g : ImgState → α → ImgState) (m : ℕ)
    (hg : ∀ st a,
      ((g st a).shadowLimiter = st.shadowLimiter ∧
        (g st a).shadowCasts = st.shadowCasts) ∨
      (st.shadowLimiter < m ∧
        (g st a).shadowLimiter = st.shadowLimiter + 1 ∧
        (g st a).shadowCasts = st.shadowCasts + 1))
    (l : List α) (s : ImgState) :
    (l.foldl g s).shadowLimiter ≤ max s.shadowLimiter m ∧
    (l.foldl g s).shadowCasts + s.shadowLimiter =
      s.shadowCasts + (l.foldl g s).shadowLimiter := by
  induction l generalizing s with
  | nil => simp
  | cons a t ih =>
    have hstep := hg s a
    have hrest := ih (g s a)
    simp only [List.foldl_cons] at *
    rcases hstep with ⟨h1, h2⟩ | ⟨h0, h1, h2⟩ <;> rw [h1, h2] at hrest <;>
      constructor <;> omega

/-- The forced pass issues at most `imgForcedShadowLimit` shadow rays when
entered with a reset limiter, and its limiter stays within the tier. -/
theorem imgForcedPass_shadow (cast : Vec → Vec → Option RayHit)
    (sc : Vec → Vec → Bool) (L : Vec) (f : ℕ) (s : ImgState) :
    (imgForcedPass cast sc L f s).shadowLimiter ≤
        max s.shadowLimiter imgForcedShadowLimit ∧
    (imgForcedPass cast sc L f s).shadowCasts + s.shadowLimiter =
      s.shadowCasts + (imgForcedPass cast sc L f s).shadowLimiter := by
  refine foldl_shadow_bound _ imgForcedShadowLimit ?_ _ s
  intro st a
  simpa using updatePixel_shadowStep cast sc (Int.ofNat a) f imgForcedShadowLimit L
    { st with trace := st.trace ++ [a] }

/-- The rotating pass issues at most `imgRotShadowLimit` shadow rays when
entered with a reset limiter, and its limiter stays within the tier. -/
theorem imgRotPass_shadow (cast : Vec → Vec → Option RayHit)
    (sc : Vec → Vec → Bool) (L : Vec) (f : ℕ) (s : ImgState) :
    (imgRotPass cast sc L f s).shadowLimiter ≤
        max s.shadowLimiter imgRotShadowLimit ∧
    (imgRotPass cast sc L f s).shadowCasts + s.shadowLimiter =
      s.shadowCasts + (imgRotPass cast sc L f s).shadowLimiter := by
  refine foldl_shadow_bound _ imgRotShadowLimit ?_ _ s
  intro st a
  have h := updatePixel_shadowStep cast sc (Int.ofNat st.pixelIndex) f
    imgRotShadowLimit L { st with trace := st.trace ++ [st.pixelIndex] }
  simpa using h

/-- C3: the limiter contract of `isInShadow` (no query and no counter
change at the limit; exactly one of each below it), together with the
tick-level guarantee: a heartbeat never issues more shadow rays than the
tier of the frame it processes — the limiter is reset to 0 before any
sample runs, whatever it held before — and on a processed tick the
end-of-tick limiter equals the number of rays issued during that tick. -/
theorem c3_shadow_budget :
    (∀ (sc : Vec → Vec → Bool) (p L : Vec) (d : ℚ) (m : ℕ) (t : ImgState),
        (m ≤ t.shadowLimiter → isInShadowImg sc p L d m t = (false, t)) ∧
        (t.shadowLimiter < m → isInShadowImg sc p L d m t =
          (sc (vadd p (vmul L (1/10))) (vmul L d),
           { t with shadowLimiter := t.shadowLimiter + 1,
                    shadowCasts := t.shadowCasts + 1 }))) ∧
    (∀ (cast : Vec → Vec → Option RayHit) (sc : Vec → Vec → Bool) (L : Vec)
        (dT : ℚ) (s : ImgState),
        (imgHeartbeat cast sc L dT s).shadowCasts - s.shadowCasts ≤
          (if (s.globalFrameCount + 1) % FORCE_UPDATE_INT = 0 then
            imgForcedShadowLimit else imgRotShadowLimit) ∧
        (¬ (s.refresh_timer + dT < 1/20) →
          (imgHeartbeat cast sc L dT s).shadowCasts =
            s.shadowCasts + (imgHeartbeat cast sc L dT s).shadowLimiter)) := by
  constructor
  · intro sc p L d m t
    constructor
    · intro h
      unfold isInShadowImg
      rw [if_pos h]
    · intro h
      unfold isInShadowImg
      rw [if_neg (Nat.not_le.mpr h)]
  · intro cast sc L dT s
    unfold imgHeartbeat
    by_cases ht : s.refresh_timer + dT < 1/20
    · rw [if_pos ht]
      constructor
      · simp
      · intro hc
        exact absurd ht hc
    · rw [if_neg ht]
      by_cases hmod : (s.globalFrameCount + 1) % FORCE_UPDATE_INT = 0
      · have hb := imgForcedPass_shadow cast sc L (s.globalFrameCount + 1)
          { s with refresh_timer := 0, shadowLimiter := 0,
                   globalFrameCount := s.globalFrameCount + 1 }
        simp only [hmod, if_true, ite_true] at *
        constructor
        · omega
        · intro _
          omega
      · have hb := imgRotPass_shadow cast sc L (s.globalFrameCount + 1)
          { s with refresh_timer := 0, shadowLimiter := 0,
                   globalFrameCount := s.globalFrameCount + 1 }
        simp only [hmod, if_false, ite_false] at *
        constructor
        · omega
        · intro _
          omega

/-- C3 witness: the tick-level budget bound at a concrete processed
rotating tick of the one-pixel client state. -/
theorem c3_shadow_budget_witness :
    (imgHeartbeat cexCastWhite cexShadowHit cexLight (1/10) cexImgInit).shadowCasts -
      cexImgInit.shadowCasts ≤ imgRotShadowLimit := by
  have h := (c3_shadow_budget.2 cexCastWhite cexShadowHit cexLight (1/10) cexImgInit).1
  simpa [cexImgInit] using h

/-! ## C8: rotation coverage -/

/-- The function `updatePixel` never touches the cursor, the visit trace, the frame
count or the pixel count. -/
theorem updatePixel_sched (cast : Vec → Vec → Option RayHit)
    (sc : Vec → Vec → Bool) (i : ℤ) (f m : ℕ) (L : Vec) (s : ImgState) :
    (updatePixel cast sc i f L m s).pixelIndex = s.pixelIndex ∧
    (updatePixel cast sc i f L m s).trace = s.trace ∧
    (updatePixel cast sc i f L m s).pixelData.length = s.pixelData.length := by
  unfold updatePixel
  split
  · exact ⟨rfl, rfl, rfl⟩
  · dsimp only
    split
    · split
      · simp only [setPixelColor, isInShadowImg]
        split
        · rename_i hp hcond hhit hbudget
          refine ⟨rfl, rfl, ?_⟩
          simp [listSetZ]
          split <;> simp_all [List.length_set]
        · constructor
          · split <;> rfl
          · constructor
            · split <;> rfl
            · split <;> (simp [listSetZ]; split <;> simp_all [List.length_set])
      · refine ⟨rfl, rfl, ?_⟩
        simp [setPixelColor, listSetZ]
        split <;> simp_all [List.length_set]
    · refine ⟨rfl, rfl, ?_⟩
      simp [listSetZ]
      split <;> simp_all [List.length_set]

/-- Running `n` iterations of the client's rotating loop visits the cursor-window
`cursor, cursor+1, …` (mod `TOTAL_PIXELS`) and leave the cursor advanced
by `n` (mod `TOTAL_PIXELS`). -/
theorem imgRotLoop_spec (cast : Vec → Vec → Option RayHit) (sc : Vec → Vec → Bool)
    (L : Vec) (f : ℕ) (n : ℕ) (s : ImgState) (hc : s.pixelIndex < TOTAL_PIXELS) :
    ((List.range n).foldl (imgRotStep cast sc L f) s).pixelIndex
        = (s.pixelIndex + n) % TOTAL_PIXELS ∧
    ((List.range n).foldl (imgRotStep cast sc L f) s).trace
        = s.trace ++ (List.range n).map (fun i => (s.pixelIndex + i) % TOTAL_PIXELS) ∧
    ((List.range n).foldl (imgRotStep cast sc L f) s).pixelData.length
        = s.pixelData.length := by
  induction n with
  | zero => simp [Nat.mod_eq_of_lt hc]
  | succ k ih =>
    obtain ⟨ih1, ih2, ih3⟩ := ih
    rw [List.range_succ, List.foldl_append]
    set st := (List.range k).foldl (imgRotStep cast sc L f) s with hst
    have hsched := updatePixel_sched cast sc (Int.ofNat st.pixelIndex) f
      imgRotShadowLimit L { st with trace := st.trace ++ [st.pixelIndex] }
    have H1 : (updatePixel cast sc (Int.ofNat st.pixelIndex) f L imgRotShadowLimit
        { st with trace := st.trace ++ [st.pixelIndex] }).pixelIndex
        = st.pixelIndex := hsched.1
    have H2 : (updatePixel cast sc (Int.ofNat st.pixelIndex) f L imgRotShadowLimit
        { st with trace := st.trace ++ [st.pixelIndex] }).trace
        = st.trace ++ [st.pixelIndex] := hsched.2.1
    have H3 : (updatePixel cast sc (Int.ofNat st.pixelIndex) f L imgRotShadowLimit
        { st with trace := st.trace ++ [st.pixelIndex] }).pixelData.length
        = st.pixelData.length := hsched.2.2
    refine ⟨?_, ?_, ?_⟩
    · simp only [List.foldl_cons, List.foldl_nil, imgRotStep, H1]
      rw [ih1, Nat.mod_add_mod, Nat.add_assoc]
    · simp only [List.foldl_cons, List.foldl_nil, imgRotStep, H2]
      rw [ih2, ih1]
      simp [List.map_append, List.append_assoc]
    · simp only [List.foldl_cons, List.foldl_nil, imgRotStep, H3]
      exact ih3

/-- One rotating pass of the client. -/
theorem imgRotPass_spec (cast : Vec → Vec → Option RayHit) (sc : Vec → Vec → Bool)
    (L : Vec) (f : ℕ) (s : ImgState) (hc : s.pixelIndex < TOTAL_PIXELS) :
    (imgRotPass cast sc L f s).pixelIndex
        = (s.pixelIndex + BATCH_SIZE) % TOTAL_PIXELS ∧
    (imgRotPass cast sc L f s).trace
        = s.trace ++ (List.range BATCH_SIZE).map
            (fun i => (s.pixelIndex + i) % TOTAL_PIXELS) ∧
    (imgRotPass cast sc L f s).pixelData.length = s.pixelData.length :=
  imgRotLoop_spec cast sc L f BATCH_SIZE s hc

/-- Over any sequence of rotating ticks the client visits exactly the
cursor-window of length `BATCH_SIZE * #ticks` (mod `TOTAL_PIXELS`), and
the cursor advances by `BATCH_SIZE` per tick. -/
theorem runRotImg_spec (ps : List TickParams) (s : ImgState)
    (hc : s.pixelIndex < TOTAL_PIXELS) :
    (runRotImg ps s).pixelIndex
        = (s.pixelIndex + BATCH_SIZE * ps.length) % TOTAL_PIXELS ∧
    (runRotImg ps s).trace
        = s.trace ++ (List.range (BATCH_SIZE * ps.length)).map
            (fun i => (s.pixelIndex + i) % TOTAL_PIXELS) := by
  induction ps generalizing s with
  | nil =>
    simp [runRotImg, Nat.mod_eq_of_lt hc]
  | cons p rest ih =>
    have hpass := imgRotPass_spec p.cast p.shadowCast p.light p.frame s hc
    have hc1 : (imgRotPass p.cast p.shadowCast p.light p.frame s).pixelIndex
        < TOTAL_PIXELS := by
      rw [hpass.1]
      exact Nat.mod_lt _ (by norm_num [TOTAL_PIXELS, IMAGE_WIDTH, IMAGE_HEIGHT])
    have hrest := ih (imgRotPass p.cast p.shadowCast p.light p.frame s) hc1
    simp only [runRotImg, List.foldl_cons] at *
    constructor
    · rw [hrest.1, hpass.1, Nat.mod_add_mod, List.length_cons]
      congr 1
      ring
    · rw [hrest.2, hpass.2.1, hpass.1, List.length_cons]
      rw [List.append_assoc]
      congr 1
      have hsplit : BATCH_SIZE * (rest.length + 1)
          = BATCH_SIZE + BATCH_SIZE * rest.length := by ring
      rw [hsplit, List.range_add, List.map_append]
      congr 1
      rw [List.map_map]
      refine List.map_congr_left ?_
      intro i _
      simp only [Function.comp]
      rw [Nat.mod_add_mod]
      congr 1
      ring

/-- The function `updatePart` never touches the cursor, the visit trace or the part
count. -/
theorem updatePart_sched (cast : Vec → Vec → Option RayHit)
    (sc : Vec → Vec → Bool) (i f m : ℕ) (L : Vec) (s : SrvState) :
    (updatePart cast sc i f L m s).index = s.index ∧
    (updatePart cast sc i f L m s).parts.length = s.parts.length ∧
    (updatePart cast sc i f L m s).trace = s.trace := by
  unfold updatePart
  split
  · exact ⟨rfl, rfl, rfl⟩
  · dsimp only
    split
    · split
      · simp only [isInShadowSrv, bufferPartUpdate, getPartIndex]
        split <;> split <;> (try split) <;> (try split) <;>
          simp [List.length_set]
      · simp only [bufferPartUpdate, getPartIndex]
        split <;> split <;> (try split) <;> simp [List.length_set]
    · simp [List.length_set]

/-- Running `n` iterations of the server's rotating loop advances the cursor by `n`
modulo the part count and keep the part count. -/
theorem srvRotLoop_spec (cast : Vec → Vec → Option RayHit) (sc : Vec → Vec → Bool)
    (L : Vec) (f : ℕ) (n : ℕ) (s : SrvState) (hc : s.index < s.parts.length) :
    ((List.range n).foldl (srvRotStep cast sc L f) s).index
        = (s.index + n) % s.parts.length ∧
    ((List.range n).foldl (srvRotStep cast sc L f) s).parts.length
        = s.parts.length := by
  induction n with
  | zero => simp [Nat.mod_eq_of_lt hc]
  | succ k ih =>
    obtain ⟨ih1, ih2⟩ := ih
    rw [List.range_succ, List.foldl_append]
    set st := (List.range k).foldl (srvRotStep cast sc L f) s with hst
    have hsched := updatePart_sched cast sc st.index f srvRotShadowLimit L
      { st with trace := st.trace ++ [st.index] }
    have H1 : (updatePart cast sc st.index f L srvRotShadowLimit
        { st with trace := st.trace ++ [st.index] }).index = st.index := hsched.1
    have H2 : (updatePart cast sc st.index f L srvRotShadowLimit
        { st with trace := st.trace ++ [st.index] }).parts.length
        = st.parts.length := hsched.2.1
    refine ⟨?_, ?_⟩
    · simp only [List.foldl_cons, List.foldl_nil, srvRotStep, H1, H2]
      rw [ih1, ih2, Nat.mod_add_mod, Nat.add_assoc]
    · simp only [List.foldl_cons, List.foldl_nil, srvRotStep, H2]
      exact ih2

/-- One rotating pass of the server. -/
theorem srvRotPass_spec (cast : Vec → Vec → Option RayHit) (sc : Vec → Vec → Bool)
    (L : Vec) (f : ℕ) (s : SrvState) (hc : s.index < s.parts.length) :
    (srvRotPass cast sc L f s).index = (s.index + srvBatchSize) % s.parts.length ∧
    (srvRotPass cast sc L f s).parts.length = s.parts.length :=
  srvRotLoop_spec cast sc L f srvBatchSize s hc

/-- Over any sequence of rotating ticks the server's cursor advances by
`srvBatchSize` per tick, modulo the (invariant) part count. -/
theorem runRotSrv_spec (ps : List TickParams) (s : SrvState)
    (hc : s.index < s.parts.length) :
    (runRotSrv ps s).index = (s.index + srvBatchSize * ps.length) % s.parts.length ∧
    (runRotSrv ps s).parts.length = s.parts.length := by
  induction ps generalizing s with
  | nil => simp [runRotSrv, Nat.mod_eq_of_lt hc]
  | cons p rest ih =>
    have hpos : 0 < s.parts.length := Nat.lt_of_le_of_lt (Nat.zero_le _) hc
    have hpass := srvRotPass_spec p.cast p.shadowCast p.light p.frame s hc
    have hc1 : (srvRotPass p.cast p.shadowCast p.light p.frame s).index
        < (srvRotPass p.cast p.shadowCast p.light p.frame s).parts.length := by
      rw [hpass.1, hpass.2]
      exact Nat.mod_lt _ hpos
    have hrest := ih (srvRotPass p.cast p.shadowCast p.light p.frame s) hc1
    simp only [runRotSrv, List.foldl_cons] at *
    constructor
    · rw [hrest.1, hpass.1, hpass.2, Nat.mod_add_mod, List.length_cons]
      congr 1
      ring
    · rw [hrest.2, hpass.2]

/-- Starting anywhere below `TOTAL_PIXELS = 6000`, the window
`c, c+1, …, c+5999` reduced modulo 6000 visits every index below 6000
exactly once. -/
theorem rotCoverCount (c j : ℕ) (hc : c < 6000) (hj : j < 6000) :
    ((List.range 6000).map (fun i => (c + i) % 6000)).count j = 1 := by
  have hnd : ((List.range 6000).map (fun i => (c + i) % 6000)).Nodup := by
    refine List.Nodup.map_on ?_ (List.nodup_range 6000)
    intro x hx y hy hxy
    rw [List.mem_range] at hx hy
    omega
  have hmem : j ∈ (List.range 6000).map (fun i => (c + i) % 6000) := by
    refine List.mem_map.mpr ⟨(j + 6000 - c) % 6000, List.mem_range.mpr ?_, ?_⟩
    · omega
    · omega
  exact List.count_eq_one_of_mem hnd hmem

/-- The probe grid of `rayModel x y` holds `x * y` tracked parts. -/
theorem rayModel_length (x y : ℕ) : (rayModel x y).length = x * y := by
  unfold rayModel
  rw [List.length_flatten, List.map_map]
  have h : ((List.range x).map
      (List.length ∘ fun a =>
        (List.range y).map (fun b =>
          ({ partId := a * y + b, position := ⟨(a : ℚ), (b : ℚ), 0⟩,
             lookVector := ⟨0, 0, -1⟩, lastHitInstance := none,
             lastHitPosition := none, lastHitMaterial := none,
             lastLightDirection := none } : TrackedPart))))
      = List.replicate x y := by
    refine List.eq_replicate_iff.mpr ⟨by simp, ?_⟩
    intro b hb
    obtain ⟨a, _, hab⟩ := List.mem_map.mp hb
    simp [Function.comp] at hab
    omega
  rw [h, List.sum_replicate, smul_eq_mul]

/-- C8 counterexample: in the part variant `ceil(4480 / 200) = 23`, yet
after 23 consecutive rotating ticks from cursor 0 over the 4480-part grid
the cursor sits at `23 * 200 mod 4480 = 120`, not back at its starting
value (so the window also cannot have covered each index exactly once:
4600 visits over 4480 indices revisit 120 of them). -/
theorem c8_server_cursor_drifts :
    (4480 + srvBatchSize - 1) / srvBatchSize = 23 ∧
    (rayModel 70 64).length = 4480 ∧
    cexRotSrvState.index = 0 ∧
    (runRotSrv (List.replicate 23 cexTickParams) cexRotSrvState).index = 120 ∧
    (runRotSrv (List.replicate 23 cexTickParams) cexRotSrvState).index
      ≠ cexRotSrvState.index := by
  have hlen : cexRotSrvState.parts.length = 4480 := by
    show (List.replicate (70 * 64) cexPartBlank).length = 4480
    rw [List.length_replicate]
  have hc : cexRotSrvState.index < cexRotSrvState.parts.length := by
    rw [hlen]
    show (0 : ℕ) < 4480
    norm_num
  have h := (runRotSrv_spec (List.replicate 23 cexTickParams) cexRotSrvState hc).1
  rw [hlen] at h
  have h120 : (runRotSrv (List.replicate 23 cexTickParams) cexRotSrvState).index
      = 120 := by
    rw [h]
    decide
  refine ⟨by decide, ?_, rfl, h120, ?_⟩
  · rw [rayModel_length]
  · rw [h120]
    decide

/-- C8 amended: in the image variant, over `ceil(6000/400) = 15`
consecutive rotating ticks every pixel index below `TOTAL_PIXELS` is
visited exactly once and the cursor returns to its starting value; in the
part variant, over `ceil(4480/200) = 23` consecutive rotating ticks the
cursor does not return: it advances by `23 * 200 mod 4480 = 120`. -/
theorem c8_rotation_coverage_amended :
    ((TOTAL_PIXELS + BATCH_SIZE - 1) / BATCH_SIZE = 15 ∧
      ∀ (ps : List TickParams) (s : ImgState),
        ps.length = 15 → s.pixelIndex < TOTAL_PIXELS → s.trace = [] →
        (runRotImg ps s).pixelIndex = s.pixelIndex ∧
        ∀ j, j < TOTAL_PIXELS → (runRotImg ps s).trace.count j = 1) ∧
    ((4480 + srvBatchSize - 1) / srvBatchSize = 23 ∧
      ∀ (ps : List TickParams) (s : SrvState),
        ps.length = 23 → s.index < s.parts.length → s.parts.length = 4480 →
        (runRotSrv ps s).index = (s.index + 120) % 4480) := by
  constructor
  · refine ⟨by decide, ?_⟩
    intro ps s hps hc htr
    have h6000 : TOTAL_PIXELS = 6000 := rfl
    have hc6 : s.pixelIndex < 6000 := by
      rw [h6000] at hc
      exact hc
    have h := runRotImg_spec ps s hc
    rw [hps] at h
    constructor
    · rw [h.1, h6000]
      show (s.pixelIndex + 400 * 15) % 6000 = s.pixelIndex
      omega
    · intro j hj
      rw [h.2, htr, List.nil_append]
      rw [h6000] at hj ⊢
      show ((List.range (400 * 15)).map
        (fun i => (s.pixelIndex + i) % 6000)).count j = 1
      exact rotCoverCount s.pixelIndex j hc6 hj
  · refine ⟨by decide, ?_⟩
    intro ps s hps hc hlen
    have h := (runRotSrv_spec ps s hc).1
    rw [hps, hlen] at h
    rw [h]
    show (s.index + 200 * 23) % 4480 = (s.index + 120) % 4480
    omega

/-- C8 witness: fifteen concrete rotating ticks over the one-pixel image
state return the cursor to 0, and pixel index 0 is visited exactly once. -/
theorem c8_rotation_coverage_amended_witness :
    (runRotImg (List.replicate 15 cexTickParams) cexImgInit).pixelIndex
        = cexImgInit.pixelIndex ∧
    (runRotImg (List.replicate 15 cexTickParams) cexImgInit).trace.count 0 = 1 := by
  have h := c8_rotation_coverage_amended.1.2 (List.replicate 15 cexTickParams)
    cexImgInit (List.length_replicate 15 cexTickParams) (by decide) rfl
  exact ⟨h.1, h.2 0 (by decide)⟩

/-! ## C10: out-of-range pixel indices -/

/-- Flattening an `h × w` generated grid gives `h * w` entries. -/
theorem grid_length {β : Type} (g : ℕ → ℕ → β) (w h : ℕ) :
    (((List.range h).map (fun y => (List.range w).map (fun x => g y x))).flatten).length
      = h * w := by
  induction h with
  | zero => simp
  | succ k ih =>
    rw [List.range_succ, List.map_append, List.flatten_append, List.length_append, ih]
    simp [Nat.succ_mul]

/-- The initialized pixel grid holds exactly `TOTAL_PIXELS` entries. -/
theorem initializePixelData_length (centerPosition : Vec) (scale : ℚ) :
    (initializePixelData centerPosition scale).length = TOTAL_PIXELS := by
  unfold initializePixelData
  rw [grid_length]
  decide

/-- The forced loop visits `0, 1, …, n-1` and leaves the cursor and the
pixel count alone. -/
theorem imgForcedLoop_spec (cast : Vec → Vec → Option RayHit) (sc : Vec → Vec → Bool)
    (L : Vec) (f : ℕ) (n : ℕ) (s : ImgState) :
    ((List.range n).foldl (imgForcedStep cast sc L f) s).trace
        = s.trace ++ List.range n ∧
    ((List.range n).foldl (imgForcedStep cast sc L f) s).pixelIndex = s.pixelIndex ∧
    ((List.range n).foldl (imgForcedStep cast sc L f) s).pixelData.length
        = s.pixelData.length := by
  induction n with
  | zero => simp
  | succ k ih =>
    obtain ⟨ih1, ih2, ih3⟩ := ih
    rw [List.range_succ, List.foldl_append]
    set st := (List.range k).foldl (imgForcedStep cast sc L f) s with hst
    have hsched := updatePixel_sched cast sc (Int.ofNat k) f
      imgForcedShadowLimit L { st with trace := st.trace ++ [k] }
    have H1 : (updatePixel cast sc (Int.ofNat k) f L imgForcedShadowLimit
        { st with trace := st.trace ++ [k] }).trace = st.trace ++ [k] := hsched.2.1
    have H2 : (updatePixel cast sc (Int.ofNat k) f L imgForcedShadowLimit
        { st with trace := st.trace ++ [k] }).pixelIndex = st.pixelIndex := hsched.1
    have H3 : (updatePixel cast sc (Int.ofNat k) f L imgForcedShadowLimit
        { st with trace := st.trace ++ [k] }).pixelData.length
        = st.pixelData.length := hsched.2.2
    refine ⟨?_, ?_, ?_⟩
    · simp only [List.foldl_cons, List.foldl_nil, imgForcedStep, H1]
      rw [ih1, List.append_assoc]
    · simp only [List.foldl_cons, List.foldl_nil, imgForcedStep, H2]
      exact ih2
    · simp only [List.foldl_cons, List.foldl_nil, imgForcedStep, H3]
      exact ih3

set_option maxRecDepth 4096 in
/-- C10: feeding `updatePixel` an index with no `pixelData` entry — any
negative index or any index at or beyond the pixel count — is a total
no-op (state returned unchanged: no primary or shadow ray, no buffer
write, no cache or counter change); the grid is initialized with exactly
`TOTAL_PIXELS` entries; and under the scheduler's arithmetic a processed
tick starting from a valid cursor only ever visits indices below
`TOTAL_PIXELS`, keeps the cursor below `TOTAL_PIXELS` and preserves the
pixel count, so the no-op branch is unreachable from the heartbeat. -/
theorem c10_out_of_range_noop :
    (∀ (cast : Vec → Vec → Option RayHit) (sc : Vec → Vec → Bool) (i : ℤ)
        (f m : ℕ) (L : Vec) (s : ImgState),
        listGetZ s.pixelData i = none → updatePixel cast sc i f L m s = s) ∧
    (∀ (l : List LightingPixel) (n : ℕ),
        listGetZ l (Int.negSucc n) = none ∧
        (l.length ≤ n → listGetZ l (Int.ofNat n) = none)) ∧
    (∀ (centerPosition : Vec) (scale : ℚ),
        (initializePixelData centerPosition scale).length = TOTAL_PIXELS) ∧
    (∀ (cast : Vec → Vec → Option RayHit) (sc : Vec → Vec → Bool) (L : Vec)
        (dT : ℚ) (s : ImgState),
        s.trace = [] → s.pixelIndex < TOTAL_PIXELS →
        (∀ i ∈ (imgHeartbeat cast sc L dT s).trace, i < TOTAL_PIXELS) ∧
        (imgHeartbeat cast sc L dT s).pixelIndex < TOTAL_PIXELS ∧
        (imgHeartbeat cast sc L dT s).pixelData.length = s.pixelData.length) := by
  refine ⟨?_, ?_, ?_, ?_⟩
  · intro cast sc i f m L s h
    unfold updatePixel
    rw [h]
  · intro l n
    refine ⟨rfl, ?_⟩
    intro h
    exact List.get?_eq_none.mpr h
  · intro centerPosition scale
    exact initializePixelData_length centerPosition scale
  · intro cast sc L dT s htr hc
    unfold imgHeartbeat
    by_cases ht : s.refresh_timer + dT < 1/20
    · rw [if_pos ht]
      refine ⟨?_, hc, rfl⟩
      intro i hi
      rw [htr] at hi
      simp at hi
    · rw [if_neg ht]
      by_cases hmod : (s.globalFrameCount + 1) % FORCE_UPDATE_INT = 0
      · simp only [hmod, if_true, ite_true]
        unfold imgForcedPass
        have hf := imgForcedLoop_spec cast sc L (s.globalFrameCount + 1)
          (min TOTAL_PIXELS imgMaxForceUpdates)
          { s with refresh_timer := 0, shadowLimiter := 0,
                   globalFrameCount := s.globalFrameCount + 1 }
        have Hf1 : ((List.range (min TOTAL_PIXELS imgMaxForceUpdates)).foldl
            (imgForcedStep cast sc L (s.globalFrameCount + 1))
            { s with refresh_timer := 0, shadowLimiter := 0,
                     globalFrameCount := s.globalFrameCount + 1 }).trace
            = s.trace ++ List.range (min TOTAL_PIXELS imgMaxForceUpdates) := hf.1
        have Hf2 : ((List.range (min TOTAL_PIXELS imgMaxForceUpdates)).foldl
            (imgForcedStep cast sc L (s.globalFrameCount + 1))
            { s with refresh_timer := 0, shadowLimiter := 0,
                     globalFrameCount := s.globalFrameCount + 1 }).pixelIndex
            = s.pixelIndex := hf.2.1
        have Hf3 : ((List.range (min TOTAL_PIXELS imgMaxForceUpdates)).foldl
            (imgForcedStep cast sc L (s.globalFrameCount + 1))
            { s with refresh_timer := 0, shadowLimiter := 0,
                     globalFrameCount := s.globalFrameCount + 1 }).pixelData.length
            = s.pixelData.length := hf.2.2
        refine ⟨?_, ?_, ?_⟩
        · intro i hi
          rw [Hf1] at hi
          rw [htr] at hi
          simp only [List.nil_append, List.mem_range] at hi
          exact Nat.lt_of_lt_of_le hi (Nat.min_le_left _ _)
        · simp only [Hf2]
          exact hc
        · simp only [Hf3]
      · simp only [hmod, if_false, ite_false]
        have hr := imgRotPass_spec cast sc L (s.globalFrameCount + 1)
          { s with refresh_timer := 0, shadowLimiter := 0,
                   globalFrameCount := s.globalFrameCount + 1 }
          (by exact hc)
        have Hr1 : (imgRotPass cast sc L (s.globalFrameCount + 1)
            { s with refresh_timer := 0, shadowLimiter := 0,
                     globalFrameCount := s.globalFrameCount + 1 }).pixelIndex
            = (s.pixelIndex + BATCH_SIZE) % TOTAL_PIXELS := hr.1
        have Hr2 : (imgRotPass cast sc L (s.globalFrameCount + 1)
            { s with refresh_timer := 0, shadowLimiter := 0,
                     globalFrameCount := s.globalFrameCount + 1 }).trace
            = s.trace ++ (List.range BATCH_SIZE).map
                (fun i => (s.pixelIndex + i) % TOTAL_PIXELS) := hr.2.1
        have Hr3 : (imgRotPass cast sc L (s.globalFrameCount + 1)
            { s with refresh_timer := 0, shadowLimiter := 0,
                     globalFrameCount := s.globalFrameCount + 1 }).pixelData.length
            = s.pixelData.length := hr.2.2
        refine ⟨?_, ?_, ?_⟩
        · intro i hi
          rw [Hr2] at hi
          rw [htr] at hi
          simp only [List.nil_append] at hi
          obtain ⟨a, _, ha⟩ := List.mem_map.mp hi
          rw [← ha]
          exact Nat.mod_lt _ (by decide)
        · simp only [Hr1]
          exact Nat.mod_lt _ (by decide)
        · simp only [Hr3]

/-- C10 witness: index 99 is out of range for the one-pixel state and the
call returns it unchanged; the standard initialization yields exactly
`TOTAL_PIXELS` pixels; and a processed rotating tick keeps the cursor in
range. -/
theorem c10_out_of_range_noop_witness :
    updatePixel cexCastWhite cexShadowHit (Int.ofNat 99) 1 cexLight 5 cexImgInit
        = cexImgInit ∧
    (initializePixelData ⟨0, 15, -30⟩ (1/2)).length = TOTAL_PIXELS ∧
    (imgHeartbeat cexCastWhite cexShadowHit cexLight (1/10) cexImgInit).pixelIndex
        < TOTAL_PIXELS := by
  refine ⟨?_, ?_, ?_⟩
  · exact c10_out_of_range_noop.1 cexCastWhite cexShadowHit (Int.ofNat 99) 1 5
      cexLight cexImgInit rfl
  · exact c10_out_of_range_noop.2.2.1 ⟨0, 15, -30⟩ (1/2)
  · exact (c10_out_of_range_noop.2.2.2 cexCastWhite cexShadowHit cexLight (1/10)
      cexImgInit rfl (by decide)).2.1
